import Mathlib

/-!
Shallow embedding of the `ProctoringSystem` class (src/unnamed/part_000)
of the proctoring repository.  JavaScript numbers are modelled by `ℚ`
(all arithmetic used by the monitored code is exact on the inputs we
consider), millisecond timestamps by `Nat`, and the mutable object by an
explicit state record threaded through the methods.  Euclidean distances
are compared through their squares (for nonnegative d, d > 0.50 iff
d^2 > 0.25), which keeps the embedding inside `ℚ`.
-/

namespace Proctoring

/-- A normalized 2D landmark point (the x, y fields of a MediaPipe landmark). -/
structure Point where
  x : ℚ
  y : ℚ
deriving DecidableEq, Repr

/-- The landmark indices actually read by the system: 1 (nose tip),
33 (left eye outer), 263 (right eye outer), 133 (left eye inner),
362 (right eye inner) and the refined iris landmarks 468 and 473, which
may be absent. -/
structure LandmarkSet where
  noseTip : Point
  leftEyeOuter : Point
  rightEyeOuter : Point
  leftEyeInner : Point
  rightEyeInner : Point
  leftIris : Option Point
  rightIris : Option Point
deriving DecidableEq, Repr

/-- GeometryUtils.calculateEyeCenter. -/
def calculateEyeCenter (leftEye rightEye : Point) : Point :=
  ⟨(leftEye.x + rightEye.x) / 2, (leftEye.y + rightEye.y) / 2⟩

/-- GeometryUtils.calculateHeadAngles: yaw and pitch proxies. -/
def calculateHeadAngles (noseTip eyeCenter : Point) : ℚ × ℚ :=
  (noseTip.x - eyeCenter.x, noseTip.y - eyeCenter.y)

/-- GeometryUtils.calculateGaze: returns none when the eye is too narrow
(CONFIG.GAZE.MIN_EYE_WIDTH = 0.01), mirroring the JS null result. -/
def calculateGaze (iris eyeInner eyeOuter : Point) : Option ℚ :=
  let eyeWidth := |eyeInner.x - eyeOuter.x|
  if eyeWidth < 1/100 then none
  else some ((iris.x - eyeOuter.x) / eyeWidth)

/-- The confirmed attention state (this.lastAttentionState). -/
inductive AttentionState
  | unknown
  | focused
  | distracted
deriving DecidableEq, Repr

/-- The confirmed person state (this.lastPersonState). -/
inductive PersonState
  | unknown
  | authorized
  | unauthorized
deriving DecidableEq, Repr

/-- A display event pushed on this.sessionEvents by logEvent: the message
and the severity string (the locale timestamp is pure formatting and
carries no logic). -/
structure Event where
  message : String
  etype : String
deriving DecidableEq, Repr

/-- A structured entry of this.sessionLogs with its kind-specific fields
(ISO timestamps and the session id stamp are formatting only). -/
inductive LogEntry
  | sessionStart (sessionId : Nat)
  | sessionEnd (duration totalV attentionV : Nat)
  | calibrationComplete (baselineYaw baselinePitch baselineGaze : ℚ)
  | faceCountChange (previous current : Nat)
  | attentionChange (state : AttentionState) (duration : Option Nat)
      (trigger : Option String)
  | faceRecognition (result : PersonState) (distanceSq : ℚ)
  | event (etype message : String)
  | frameSaved (reason : String) (time : Nat)
deriving DecidableEq, Repr

/-- Mutable fields of the ProctoringSystem object that the monitored
logic reads or writes.  Canvas, video, MediaPipe handles and callbacks
are external collaborators with no core state. -/
structure ProctoringState where
  isMonitoring : Bool
  enrolledDescriptors : Option (List (List ℚ))
  sessionStartTime : Option Nat
  totalViolations : Nat
  attentionViolations : Nat
  sessionEvents : List Event
  sessionLogs : List LogEntry
  lastFaceCount : Nat
  lastAttentionState : AttentionState
  lastPersonState : PersonState
  yawHistoryBuf : List ℚ
  pitchHistoryBuf : List ℚ
  gazeHistoryBuf : List ℚ
  distractionCounter : Nat
  focusCounter : Nat
  unauthorizedCounter : Nat
  authorizedCounter : Nat
  lastViolationFrameSave : Nat
  lastFaceRecogTime : Nat
  faceRecognitionStarted : Bool
  calibrationFrames : Nat
  baselineYaw : ℚ
  baselinePitch : ℚ
  baselineGaze : ℚ
  distractionStartTime : Option Nat
  violationFrames : List (String × Nat)
deriving DecidableEq, Repr

/-- The field values set by the constructor, before loadEnrolledFace runs. -/
def initStateRaw : ProctoringState where
  isMonitoring := false
  enrolledDescriptors := none
  sessionStartTime := none
  totalViolations := 0
  attentionViolations := 0
  sessionEvents := []
  sessionLogs := []
  lastFaceCount := 0
  lastAttentionState := AttentionState.unknown
  lastPersonState := PersonState.unknown
  yawHistoryBuf := []
  pitchHistoryBuf := []
  gazeHistoryBuf := []
  distractionCounter := 0
  focusCounter := 0
  unauthorizedCounter := 0
  authorizedCounter := 0
  lastViolationFrameSave := 0
  lastFaceRecogTime := 0
  faceRecognitionStarted := false
  calibrationFrames := 0
  baselineYaw := 0
  baselinePitch := 0
  baselineGaze := 0
  distractionStartTime := none
  violationFrames := []

/-- addToSessionLog: append-only push (the session id and default
timestamp stamping carries no logic in this model). -/
def addToSessionLog (e : LogEntry) (s : ProctoringState) : ProctoringState :=
  { s with sessionLogs := s.sessionLogs ++ [e] }

/-- saveViolationFrame: rate-limited capture request.  Inside the 4000 ms
window the request is dropped with no state change; otherwise the capture
time is recorded, the frame request is stored, and a frame_saved entry is
appended. -/
def saveViolationFrame (message : String) (now : Nat) (s : ProctoringState) :
    ProctoringState :=
  if now - s.lastViolationFrameSave < 4000 then s
  else
    { s with
      lastViolationFrameSave := now
      violationFrames := s.violationFrames ++ [(message, now)]
      sessionLogs := s.sessionLogs ++ [LogEntry.frameSaved message now] }

/-- Does pat occur as a contiguous run inside msg (on char lists)? -/
def charsContain (pat : List Char) : List Char → Bool
  | [] => pat.isEmpty
  | c :: rest => pat.isPrefixOf (c :: rest) || charsContain pat rest

/-- JavaScript String.prototype.includes on our strings. -/
def containsSubstr (msg pat : String) : Bool :=
  charsContain pat.data msg.data

/-- logEvent(message, type): push display event; on violation severity
bump totalViolations, bump attentionViolations iff the message contains
one of the two fixed substrings, and request a frame capture; always
append a structured event entry. -/
def logEvent (message etype : String) (now : Nat) (s : ProctoringState) :
    ProctoringState :=
  let s1 := { s with sessionEvents := s.sessionEvents ++ [⟨message, etype⟩] }
  let s2 :=
    if etype = "violation" then
      let sa := { s1 with totalViolations := s1.totalViolations + 1 }
      let sb :=
        if containsSubstr message "distraction" ||
            containsSubstr message "looking away" then
          { sa with attentionViolations := sa.attentionViolations + 1 }
        else sa
      saveViolationFrame message now sb
    else s1
  addToSessionLog (LogEntry.event etype message) s2

/-- loadEnrolledFace, run once at construction.  The stored value is
modelled as: none = no localStorage entry; some none = a stored string
whose JSON.parse throws (malformed); some (some l) = a parsed descriptor
list.  A parse error is caught and reported only to the console. -/
def loadEnrolledFace (stored : Option (Option (List (List ℚ))))
    (s : ProctoringState) : ProctoringState :=
  match stored with
  | some (some parsed) => { s with enrolledDescriptors := some parsed }
  | some none => s
  | none => logEvent "No enrolled face found. Please enroll first." "error" 0 s

/-- The constructor state: field initialization then loadEnrolledFace. -/
def constructorState (stored : Option (Option (List (List ℚ)))) :
    ProctoringState :=
  loadEnrolledFace stored initStateRaw

/-- startMonitoring: reset the listed tracking fields, then the start
event and the session_start structured entry. -/
def startMonitoring (now : Nat) (s : ProctoringState) : ProctoringState :=
  let s1 := { s with
    isMonitoring := true
    sessionStartTime := some now
    lastAttentionState := AttentionState.unknown
    lastPersonState := PersonState.unknown
    calibrationFrames := 0
    distractionCounter := 0
    focusCounter := 0
    unauthorizedCounter := 0
    authorizedCounter := 0
    sessionEvents := []
    sessionLogs := []
    lastFaceRecogTime := 0
    faceRecognitionStarted := false
    violationFrames := [] }
  let s2 := logEvent "Monitoring session started - Calibrating..." "info" now s1
  addToSessionLog (LogEntry.sessionStart now) s2

/-- stopMonitoring: clear the flag, log the stop event and the
session_end structured entry. -/
def stopMonitoring (now : Nat) (s : ProctoringState) : ProctoringState :=
  let s1 := { s with isMonitoring := false }
  let s2 := logEvent "Monitoring session stopped" "info" now s1
  addToSessionLog
    (LogEntry.sessionEnd (now - s1.sessionStartTime.getD now)
      s2.totalViolations s2.attentionViolations) s2

/-- One EMA update, `b * (1 - alpha) + x * alpha`, as written in
calibrateBaseline (alpha = CONFIG.CALIBRATION.EMA_ALPHA = 0.1). -/
def emaStep (alpha b x : ℚ) : ℚ :=
  b * (1 - alpha) + x * alpha

/-- The raw yaw sample calibrateBaseline extracts from a landmark set. -/
def rawYaw (lms : LandmarkSet) : ℚ :=
  (calculateHeadAngles lms.noseTip
    (calculateEyeCenter lms.leftEyeOuter lms.rightEyeOuter)).1

/-- The raw pitch sample calibrateBaseline extracts from a landmark set. -/
def rawPitch (lms : LandmarkSet) : ℚ :=
  (calculateHeadAngles lms.noseTip
    (calculateEyeCenter lms.leftEyeOuter lms.rightEyeOuter)).2

/-- The averaged gaze sample, defined exactly when both iris landmarks are
present and both per-eye ratios are computable. -/
def rawGazeSample (lms : LandmarkSet) : Option ℚ :=
  match lms.leftIris, lms.rightIris with
  | some li, some ri =>
    match calculateGaze li lms.leftEyeInner lms.leftEyeOuter,
        calculateGaze ri lms.rightEyeInner lms.rightEyeOuter with
    | some lg, some rg => some ((lg + rg) / 2)
    | _, _ => none
  | _, _ => none

/-- calibrateBaseline: EMA updates of the three baselines; the gaze
baseline is updated only when the averaged gaze sample is computable. -/
def calibrateBaseline (lms : LandmarkSet) (s : ProctoringState) :
    ProctoringState :=
  let s1 :=
    match rawGazeSample lms with
    | some g => { s with baselineGaze := emaStep (1/10) s.baselineGaze g }
    | none => s
  { s1 with
    baselineYaw := emaStep (1/10) s1.baselineYaw (rawYaw lms)
    baselinePitch := emaStep (1/10) s1.baselinePitch (rawPitch lms) }

/-- analyzeAttention: deviation from baseline, EMA smoothing against the
last history value, bounded history push, adaptive thresholds; returns
the per-frame head-pose classification and the updated state. -/
def analyzeAttention (lms : LandmarkSet) (s : ProctoringState) :
    AttentionState × ProctoringState :=
  let yawDeviation := |rawYaw lms - s.baselineYaw|
  let pitchDeviation := |rawPitch lms - s.baselinePitch|
  let lastYaw := s.yawHistoryBuf.getLast?.getD yawDeviation
  let lastPitch := s.pitchHistoryBuf.getLast?.getD pitchDeviation
  let smoothedYaw := (1/4) * yawDeviation + (1 - 1/4) * lastYaw
  let smoothedPitch := (1/4) * pitchDeviation + (1 - 1/4) * lastPitch
  let yh := s.yawHistoryBuf ++ [smoothedYaw]
  let yh := if 8 < yh.length then yh.tail else yh
  let ph := s.pitchHistoryBuf ++ [smoothedPitch]
  let ph := if 8 < ph.length then ph.tail else ph
  let yawThreshold := max (8/100) (s.baselineYaw * 2 + 5/100)
  let pitchThreshold := max (12/100) (s.baselinePitch * 2 + 6/100)
  (if yawThreshold < smoothedYaw ∨ pitchThreshold < smoothedPitch then
      AttentionState.distracted
    else AttentionState.focused,
   { s with yawHistoryBuf := yh, pitchHistoryBuf := ph })

/-- analyzeGaze: focused when iris data or a ratio is unavailable, else
deviation from gaze baseline with EMA smoothing, bounded history push,
adaptive threshold. -/
def analyzeGaze (lms : LandmarkSet) (s : ProctoringState) :
    AttentionState × ProctoringState :=
  match lms.leftIris, lms.rightIris with
  | some li, some ri =>
    match calculateGaze li lms.leftEyeInner lms.leftEyeOuter,
        calculateGaze ri lms.rightEyeInner lms.rightEyeOuter with
    | some lg, some rg =>
      let avgGaze := (lg + rg) / 2
      let gazeDeviation := |avgGaze - s.baselineGaze|
      let lastGaze := s.gazeHistoryBuf.getLast?.getD gazeDeviation
      let smoothedGaze := (1/4) * gazeDeviation + (1 - 1/4) * lastGaze
      let gh := s.gazeHistoryBuf ++ [smoothedGaze]
      let gh := if 8 < gh.length then gh.tail else gh
      let gazeThreshold := max (18/100) (s.baselineGaze * (1/2) + 12/100)
      (if gazeThreshold < smoothedGaze then AttentionState.distracted
        else AttentionState.focused,
       { s with gazeHistoryBuf := gh })
    | _, _ => (AttentionState.focused, s)
  | _, _ => (AttentionState.focused, s)

/-- The stabilized distraction/focus block of onFaceMeshResults, applied
to the per-frame head-pose and gaze classifications. -/
def attentionUpdate (attention gaze : AttentionState) (now : Nat)
    (s : ProctoringState) : ProctoringState :=
  if attention = AttentionState.distracted ∨ gaze = AttentionState.distracted then
    let s1 := { s with
      distractionCounter := s.distractionCounter + 1
      focusCounter := 0 }
    let s2 :=
      if s1.distractionStartTime = none then
        { s1 with distractionStartTime := some now }
      else s1
    if 3 ≤ s2.distractionCounter then
      let dur := now - s2.distractionStartTime.getD now
      if 2000 ≤ dur ∧ s2.lastAttentionState ≠ AttentionState.distracted then
        let s3 := logEvent "Sustained distraction detected" "violation" now s2
        let s4 := { s3 with lastAttentionState := AttentionState.distracted }
        addToSessionLog
          (LogEntry.attentionChange AttentionState.distracted (some dur)
            (some (if attention = AttentionState.distracted then
              "head_movement" else "gaze_shift"))) s4
      else s2
    else s2
  else
    let s1 := { s with
      focusCounter := s.focusCounter + 1
      distractionCounter := 0
      distractionStartTime := none }
    if 3 ≤ s1.focusCounter ∧ s1.lastAttentionState ≠ AttentionState.focused then
      let s2 := logEvent "Focus restored" "info" now s1
      let s3 := { s2 with lastAttentionState := AttentionState.focused }
      addToSessionLog
        (LogEntry.attentionChange AttentionState.focused none none) s3
    else s1

/-- onFaceMeshResults: early exit when not monitoring or no landmarks;
calibration phase for the first 45 landmark frames; one-shot calibration
complete transition when the counter sits at 45; then attention and gaze
analysis feeding the stabilized attention update. -/
def onFaceMeshResults (lmsOpt : Option LandmarkSet) (now : Nat)
    (s : ProctoringState) : ProctoringState :=
  if s.isMonitoring = false then s
  else
    match lmsOpt with
    | none => s
    | some lms =>
      if s.calibrationFrames < 45 then
        let s1 := calibrateBaseline lms s
        { s1 with calibrationFrames := s1.calibrationFrames + 1 }
      else
        let s1 :=
          if s.calibrationFrames = 45 then
            let sa := logEvent "Calibration complete - Monitoring attention"
              "info" now s
            let sb := addToSessionLog
              (LogEntry.calibrationComplete sa.baselineYaw sa.baselinePitch
                sa.baselineGaze) sa
            { sb with calibrationFrames := sb.calibrationFrames + 1 }
          else s
        let pa := analyzeAttention lms s1
        let pg := analyzeGaze lms pa.2
        attentionUpdate pa.1 pg.1 now pg.2

/-- onFaceDetectionResults: presence transitions on the raw face count,
with identity-counter resets on zero or multiple faces, a
face_count_change entry on any change, and unconditional update of the
previous count. -/
def resetFaceRecognitionCounters (s : ProctoringState) : ProctoringState :=
  { s with unauthorizedCounter := 0, authorizedCounter := 0 }

def onFaceDetectionResults (faceCount now : Nat) (s : ProctoringState) :
    ProctoringState :=
  if s.isMonitoring = false then s
  else
    let s1 :=
      if faceCount = 0 then
        let sa :=
          if s.lastFaceCount ≠ 0 then
            logEvent "No face detected" "violation" now s
          else s
        resetFaceRecognitionCounters sa
      else if 1 < faceCount then
        let sa :=
          if s.lastFaceCount ≤ 1 then
            logEvent "Multiple faces detected" "violation" now s
          else s
        resetFaceRecognitionCounters sa
      else
        if s.lastFaceCount ≠ 1 then
          logEvent "Single face detected - OK" "info" now s
        else s
    let s2 :=
      if s.lastFaceCount ≠ faceCount then
        addToSessionLog (LogEntry.faceCountChange s.lastFaceCount faceCount) s1
      else s1
    { s2 with lastFaceCount := faceCount }

/-- Squared Euclidean distance between two descriptors (d > 0.50 iff
this exceeds 0.25, for the nonnegative d the source compares). -/
def euclideanDistSq (a b : List ℚ) : ℚ :=
  (List.zipWith (fun x y => (x - y) ^ 2) a b).sum

/-- The running minimum of the squared distances, with none standing for
the initial Infinity. -/
def bestDistanceSq (enrolled : List (List ℚ)) (descriptor : List ℚ) :
    Option ℚ :=
  enrolled.foldl
    (fun best ref =>
      match best with
      | none => some (euclideanDistSq ref descriptor)
      | some b => some (min b (euclideanDistSq ref descriptor)))
    none

/-- bestDistance > 0.50, squared form; Infinity exceeds every threshold. -/
def isUnauthorizedDistSq : Option ℚ → Bool
  | none => true
  | some q => decide ((1/4 : ℚ) < q)

/-- performFaceRecognition: skip with counter reset when the last face
count is 0 or more than 1; counter reset on detection failure; else
classify by best-match distance against the enrolled descriptors and run
the 3-frame stabilized confirmation in the matching direction.  (The
distance interpolated into the message text and the error path, which
also resets the counters, are formatting/diagnostics.) -/
def performFaceRecognition (detection : Option (List ℚ)) (now : Nat)
    (s : ProctoringState) : ProctoringState :=
  if s.lastFaceCount = 0 ∨ 1 < s.lastFaceCount then
    resetFaceRecognitionCounters s
  else
    match detection with
    | none => resetFaceRecognitionCounters s
    | some descriptor =>
      let best := bestDistanceSq (s.enrolledDescriptors.getD []) descriptor
      if isUnauthorizedDistSq best then
        let s1 := { s with
          unauthorizedCounter := s.unauthorizedCounter + 1
          authorizedCounter := 0 }
        if 3 ≤ s1.unauthorizedCounter ∧
            s1.lastPersonState ≠ PersonState.unauthorized then
          let s2 := logEvent "Wrong person detected" "violation" now s1
          let s3 := { s2 with lastPersonState := PersonState.unauthorized }
          addToSessionLog
            (LogEntry.faceRecognition PersonState.unauthorized (best.getD 0)) s3
        else s1
      else
        let s1 := { s with
          authorizedCounter := s.authorizedCounter + 1
          unauthorizedCounter := 0 }
        if 3 ≤ s1.authorizedCounter ∧
            s1.lastPersonState ≠ PersonState.authorized then
          let s2 := logEvent "Authorized person verified" "info" now s1
          let s3 := { s2 with lastPersonState := PersonState.authorized }
          addToSessionLog
            (LogEntry.faceRecognition PersonState.authorized (best.getD 0)) s3
        else s1

/-- The time gate of processVideo for invoking face recognition: an
initial run 1000 ms after session start, then every 10000 ms, and only
with a nonempty enrolled descriptor list. -/
def faceRecognitionDue (now : Nat) (s : ProctoringState) : Bool :=
  match s.enrolledDescriptors with
  | none => false
  | some l =>
    if l.length = 0 then false
    else if s.faceRecognitionStarted = false then
      decide (1000 ≤ now - s.sessionStartTime.getD 0)
    else decide (10000 ≤ now - s.lastFaceRecogTime)

/-- The per-frame inputs one processVideo tick consumes from the
collaborators. -/
structure TickInput where
  faceCount : Nat
  lms : Option LandmarkSet
  detection : Option (List ℚ)
  now : Nat

/-- One processVideo tick: both result handlers, then the gated face
recognition (recording its invocation time and the started flag before
running).  The Bool reports whether recognition was invoked this tick. -/
def processVideoTick (t : TickInput) (s : ProctoringState) :
    ProctoringState × Bool :=
  if s.isMonitoring = false then (s, false)
  else
    let s1 := onFaceDetectionResults t.faceCount t.now s
    let s2 := onFaceMeshResults t.lms t.now s1
    if faceRecognitionDue t.now s2 then
      (performFaceRecognition t.detection t.now
        { s2 with lastFaceRecogTime := t.now, faceRecognitionStarted := true },
       true)
    else (s2, false)

/-- Run a list of ticks, counting how many invoked face recognition. -/
def runTicks (ts : List TickInput) (s : ProctoringState) :
    ProctoringState × Nat :=
  ts.foldl
    (fun p t =>
      ((processVideoTick t p.1).1,
        p.2 + (if (processVideoTick t p.1).2 then 1 else 0)))
    (s, 0)

@[simp] lemma addToSessionLog_sessionLogs (e : LogEntry) (s : ProctoringState) :
    (addToSessionLog e s).sessionLogs = s.sessionLogs ++ [e] := rfl

@[simp] lemma addToSessionLog_sessionEvents (e : LogEntry) (s : ProctoringState) :
    (addToSessionLog e s).sessionEvents = s.sessionEvents := rfl

@[simp] lemma saveViolationFrame_sessionEvents (m : String) (now : Nat)
    (s : ProctoringState) :
    (saveViolationFrame m now s).sessionEvents = s.sessionEvents := by
  simp only [saveViolationFrame]; split <;> rfl

@[simp] lemma logEvent_sessionEvents (m t : String) (now : Nat)
    (s : ProctoringState) :
    (logEvent m t now s).sessionEvents = s.sessionEvents ++ [⟨m, t⟩] := by
  simp only [logEvent, saveViolationFrame, addToSessionLog]
  split_ifs <;> rfl

@[simp] lemma logEvent_distractionCounter (m t : String) (now : Nat)
    (s : ProctoringState) :
    (logEvent m t now s).distractionCounter = s.distractionCounter := by
  simp only [logEvent, saveViolationFrame, addToSessionLog]
  split_ifs <;> rfl

@[simp] lemma logEvent_focusCounter (m t : String) (now : Nat)
    (s : ProctoringState) :
    (logEvent m t now s).focusCounter = s.focusCounter := by
  simp only [logEvent, saveViolationFrame, addToSessionLog]
  split_ifs <;> rfl

@[simp] lemma logEvent_distractionStartTime (m t : String) (now : Nat)
    (s : ProctoringState) :
    (logEvent m t now s).distractionStartTime = s.distractionStartTime := by
  simp only [logEvent, saveViolationFrame, addToSessionLog]
  split_ifs <;> rfl

@[simp] lemma logEvent_lastAttentionState (m t : String) (now : Nat)
    (s : ProctoringState) :
    (logEvent m t now s).lastAttentionState = s.lastAttentionState := by
  simp only [logEvent, saveViolationFrame, addToSessionLog]
  split_ifs <;> rfl

@[simp] lemma logEvent_lastPersonState (m t : String) (now : Nat)
    (s : ProctoringState) :
    (logEvent m t now s).lastPersonState = s.lastPersonState := by
  simp only [logEvent, saveViolationFrame, addToSessionLog]
  split_ifs <;> rfl

@[simp] lemma logEvent_lastFaceCount (m t : String) (now : Nat)
    (s : ProctoringState) :
    (logEvent m t now s).lastFaceCount = s.lastFaceCount := by
  simp only [logEvent, saveViolationFrame, addToSessionLog]
  split_ifs <;> rfl

@[simp] lemma logEvent_calibrationFrames (m t : String) (now : Nat)
    (s : ProctoringState) :
    (logEvent m t now s).calibrationFrames = s.calibrationFrames := by
  simp only [logEvent, saveViolationFrame, addToSessionLog]
  split_ifs <;> rfl

@[simp] lemma logEvent_baselineYaw (m t : String) (now : Nat)
    (s : ProctoringState) :
    (logEvent m t now s).baselineYaw = s.baselineYaw := by
  simp only [logEvent, saveViolationFrame, addToSessionLog]
  split_ifs <;> rfl

@[simp] lemma logEvent_baselinePitch (m t : String) (now : Nat)
    (s : ProctoringState) :
    (logEvent m t now s).baselinePitch = s.baselinePitch := by
  simp only [logEvent, saveViolationFrame, addToSessionLog]
  split_ifs <;> rfl

@[simp] lemma logEvent_baselineGaze (m t : String) (now : Nat)
    (s : ProctoringState) :
    (logEvent m t now s).baselineGaze = s.baselineGaze := by
  simp only [logEvent, saveViolationFrame, addToSessionLog]
  split_ifs <;> rfl

@[simp] lemma logEvent_yawHistoryBuf (m t : String) (now : Nat)
    (s : ProctoringState) :
    (logEvent m t now s).yawHistoryBuf = s.yawHistoryBuf := by
  simp only [logEvent, saveViolationFrame, addToSessionLog]
  split_ifs <;> rfl

@[simp] lemma logEvent_pitchHistoryBuf (m t : String) (now : Nat)
    (s : ProctoringState) :
    (logEvent m t now s).pitchHistoryBuf = s.pitchHistoryBuf := by
  simp only [logEvent, saveViolationFrame, addToSessionLog]
  split_ifs <;> rfl

@[simp] lemma logEvent_gazeHistoryBuf (m t : String) (now : Nat)
    (s : ProctoringState) :
    (logEvent m t now s).gazeHistoryBuf = s.gazeHistoryBuf := by
  simp only [logEvent, saveViolationFrame, addToSessionLog]
  split_ifs <;> rfl

@[simp] lemma logEvent_unauthorizedCounter (m t : String) (now : Nat)
    (s : ProctoringState) :
    (logEvent m t now s).unauthorizedCounter = s.unauthorizedCounter := by
  simp only [logEvent, saveViolationFrame, addToSessionLog]
  split_ifs <;> rfl

@[simp] lemma logEvent_authorizedCounter (m t : String) (now : Nat)
    (s : ProctoringState) :
    (logEvent m t now s).authorizedCounter = s.authorizedCounter := by
  simp only [logEvent, saveViolationFrame, addToSessionLog]
  split_ifs <;> rfl

@[simp] lemma logEvent_enrolledDescriptors (m t : String) (now : Nat)
    (s : ProctoringState) :
    (logEvent m t now s).enrolledDescriptors = s.enrolledDescriptors := by
  simp only [logEvent, saveViolationFrame, addToSessionLog]
  split_ifs <;> rfl

@[simp] lemma logEvent_isMonitoring (m t : String) (now : Nat)
    (s : ProctoringState) :
    (logEvent m t now s).isMonitoring = s.isMonitoring := by
  simp only [logEvent, saveViolationFrame, addToSessionLog]
  split_ifs <;> rfl

@[simp] lemma logEvent_sessionStartTime (m t : String) (now : Nat)
    (s : ProctoringState) :
    (logEvent m t now s).sessionStartTime = s.sessionStartTime := by
  simp only [logEvent, saveViolationFrame, addToSessionLog]
  split_ifs <;> rfl

@[simp] lemma logEvent_faceRecognitionStarted (m t : String) (now : Nat)
    (s : ProctoringState) :
    (logEvent m t now s).faceRecognitionStarted = s.faceRecognitionStarted := by
  simp only [logEvent, saveViolationFrame, addToSessionLog]
  split_ifs <;> rfl

@[simp] lemma logEvent_lastFaceRecogTime (m t : String) (now : Nat)
    (s : ProctoringState) :
    (logEvent m t now s).lastFaceRecogTime = s.lastFaceRecogTime := by
  simp only [logEvent, saveViolationFrame, addToSessionLog]
  split_ifs <;> rfl

/-- On non-violation severities logEvent leaves both counters alone. -/
lemma logEvent_totalViolations_of_ne (m t : String) (now : Nat)
    (s : ProctoringState) (h : t ≠ "violation") :
    (logEvent m t now s).totalViolations = s.totalViolations := by
  simp only [logEvent, saveViolationFrame, addToSessionLog]
  split_ifs with h1 <;> first | exact absurd h1 h | rfl

lemma logEvent_attentionViolations_of_ne (m t : String) (now : Nat)
    (s : ProctoringState) (h : t ≠ "violation") :
    (logEvent m t now s).attentionViolations = s.attentionViolations := by
  simp only [logEvent, saveViolationFrame, addToSessionLog]
  split_ifs with h1 <;> first | exact absurd h1 h | rfl

/-- On violation severity logEvent always bumps totalViolations. -/
lemma logEvent_totalViolations_violation (m : String) (now : Nat)
    (s : ProctoringState) :
    (logEvent m "violation" now s).totalViolations = s.totalViolations + 1 := by
  simp only [logEvent, saveViolationFrame, addToSessionLog]
  split_ifs <;> simp_all

/-- On violation severity logEvent bumps attentionViolations exactly when
the message matches a fixed substring. -/
lemma logEvent_attentionViolations_violation (m : String) (now : Nat)
    (s : ProctoringState) :
    (logEvent m "violation" now s).attentionViolations =
      s.attentionViolations +
        (if containsSubstr m "distraction" || containsSubstr m "looking away"
          then 1 else 0) := by
  simp only [logEvent, saveViolationFrame, addToSessionLog]
  split_ifs <;> simp_all

@[simp] lemma addToSessionLog_isMonitoring (e : LogEntry) (s : ProctoringState) :
    (addToSessionLog e s).isMonitoring = s.isMonitoring := rfl

@[simp] lemma addToSessionLog_lastFaceCount (e : LogEntry) (s : ProctoringState) :
    (addToSessionLog e s).lastFaceCount = s.lastFaceCount := rfl

@[simp] lemma addToSessionLog_totalViolations (e : LogEntry) (s : ProctoringState) :
    (addToSessionLog e s).totalViolations = s.totalViolations := rfl

@[simp] lemma addToSessionLog_attentionViolations (e : LogEntry)
    (s : ProctoringState) :
    (addToSessionLog e s).attentionViolations = s.attentionViolations := rfl

@[simp] lemma addToSessionLog_enrolledDescriptors (e : LogEntry)
    (s : ProctoringState) :
    (addToSessionLog e s).enrolledDescriptors = s.enrolledDescriptors := rfl

@[simp] lemma addToSessionLog_distractionCounter (e : LogEntry)
    (s : ProctoringState) :
    (addToSessionLog e s).distractionCounter = s.distractionCounter := rfl

@[simp] lemma addToSessionLog_focusCounter (e : LogEntry) (s : ProctoringState) :
    (addToSessionLog e s).focusCounter = s.focusCounter := rfl

@[simp] lemma addToSessionLog_distractionStartTime (e : LogEntry)
    (s : ProctoringState) :
    (addToSessionLog e s).distractionStartTime = s.distractionStartTime := rfl

@[simp] lemma addToSessionLog_lastAttentionState (e : LogEntry)
    (s : ProctoringState) :
    (addToSessionLog e s).lastAttentionState = s.lastAttentionState := rfl

@[simp] lemma addToSessionLog_lastPersonState (e : LogEntry)
    (s : ProctoringState) :
    (addToSessionLog e s).lastPersonState = s.lastPersonState := rfl

@[simp] lemma addToSessionLog_unauthorizedCounter (e : LogEntry)
    (s : ProctoringState) :
    (addToSessionLog e s).unauthorizedCounter = s.unauthorizedCounter := rfl

@[simp] lemma addToSessionLog_authorizedCounter (e : LogEntry)
    (s : ProctoringState) :
    (addToSessionLog e s).authorizedCounter = s.authorizedCounter := rfl

@[simp] lemma addToSessionLog_calibrationFrames (e : LogEntry)
    (s : ProctoringState) :
    (addToSessionLog e s).calibrationFrames = s.calibrationFrames := rfl

@[simp] lemma addToSessionLog_baselineYaw (e : LogEntry) (s : ProctoringState) :
    (addToSessionLog e s).baselineYaw = s.baselineYaw := rfl

@[simp] lemma addToSessionLog_baselinePitch (e : LogEntry) (s : ProctoringState) :
    (addToSessionLog e s).baselinePitch = s.baselinePitch := rfl

@[simp] lemma addToSessionLog_baselineGaze (e : LogEntry) (s : ProctoringState) :
    (addToSessionLog e s).baselineGaze = s.baselineGaze := rfl

@[simp] lemma addToSessionLog_yawHistoryBuf (e : LogEntry) (s : ProctoringState) :
    (addToSessionLog e s).yawHistoryBuf = s.yawHistoryBuf := rfl

@[simp] lemma addToSessionLog_pitchHistoryBuf (e : LogEntry)
    (s : ProctoringState) :
    (addToSessionLog e s).pitchHistoryBuf = s.pitchHistoryBuf := rfl

@[simp] lemma addToSessionLog_gazeHistoryBuf (e : LogEntry)
    (s : ProctoringState) :
    (addToSessionLog e s).gazeHistoryBuf = s.gazeHistoryBuf := rfl

@[simp] lemma resetFaceRecognitionCounters_proj (s : ProctoringState) :
    (resetFaceRecognitionCounters s).unauthorizedCounter = 0 ∧
    (resetFaceRecognitionCounters s).authorizedCounter = 0 ∧
    (resetFaceRecognitionCounters s).sessionEvents = s.sessionEvents ∧
    (resetFaceRecognitionCounters s).sessionLogs = s.sessionLogs ∧
    (resetFaceRecognitionCounters s).lastFaceCount = s.lastFaceCount ∧
    (resetFaceRecognitionCounters s).isMonitoring = s.isMonitoring ∧
    (resetFaceRecognitionCounters s).enrolledDescriptors =
      s.enrolledDescriptors := by
  exact ⟨rfl, rfl, rfl, rfl, rfl, rfl, rfl⟩

/- Capture throttle behavior of logEvent on violation severity. -/
lemma logEvent_violation_capture_accept (m : String) (now : Nat)
    (s : ProctoringState) (h : 4000 ≤ now - s.lastViolationFrameSave) :
    (logEvent m "violation" now s).violationFrames =
      s.violationFrames ++ [(m, now)] ∧
    (logEvent m "violation" now s).lastViolationFrameSave = now := by
  simp only [logEvent, saveViolationFrame, addToSessionLog]
  split_ifs <;> simp_all <;> omega

lemma logEvent_violation_capture_drop (m : String) (now : Nat)
    (s : ProctoringState) (h : now - s.lastViolationFrameSave < 4000) :
    (logEvent m "violation" now s).violationFrames = s.violationFrames ∧
    (logEvent m "violation" now s).lastViolationFrameSave =
      s.lastViolationFrameSave := by
  simp only [logEvent, saveViolationFrame, addToSessionLog]
  split_ifs <;> simp_all

/-- C7: every logEvent call with severity violation increments
totalViolations by exactly one, and increments attentionViolations by
exactly one if and only if the message contains the substring
"distraction" or the substring "looking away"; in particular the
sustained-distraction message bumps both counters and the wrong-person
message bumps only totalViolations. -/
theorem C7_violation_accounting :
    ∀ (s : ProctoringState) (m : String) (now : Nat),
      (logEvent m "violation" now s).totalViolations = s.totalViolations + 1 ∧
      ((logEvent m "violation" now s).attentionViolations =
          s.attentionViolations + 1 ↔
        (containsSubstr m "distraction" = true ∨
          containsSubstr m "looking away" = true)) ∧
      (logEvent "Sustained distraction detected" "violation" now s).totalViolations
        = s.totalViolations + 1 ∧
      (logEvent "Sustained distraction detected" "violation" now s).attentionViolations
        = s.attentionViolations + 1 ∧
      (logEvent "Wrong person detected" "violation" now s).totalViolations
        = s.totalViolations + 1 ∧
      (logEvent "Wrong person detected" "violation" now s).attentionViolations
        = s.attentionViolations := by
  intro s m now
  refine ⟨logEvent_totalViolations_violation m now s, ?_,
    logEvent_totalViolations_violation _ now s, ?_,
    logEvent_totalViolations_violation _ now s, ?_⟩
  · rw [logEvent_attentionViolations_violation]
    by_cases h : (containsSubstr m "distraction" ||
        containsSubstr m "looking away") = true
    · rw [if_pos h]
      constructor
      · intro _
        exact (Bool.or_eq_true _ _).mp h
      · intro _
        rfl
    · rw [if_neg h]
      constructor
      · intro hfalse
        exact absurd hfalse (by omega)
      · intro hor
        exact absurd ((Bool.or_eq_true _ _).mpr hor) h
  · rw [logEvent_attentionViolations_violation]
    have : containsSubstr "Sustained distraction detected" "distraction" = true := by
      decide
    simp [this]
  · rw [logEvent_attentionViolations_violation]
    have h1 : containsSubstr "Wrong person detected" "distraction" = false := by
      decide
    have h2 : containsSubstr "Wrong person detected" "looking away" = false := by
      decide
    simp [h1, h2]

/-- C8: a violation frame-capture request is accepted iff at least
4000 ms have elapsed since the last accepted capture; inside the window
the request is dropped with no state change; two violation events
1000 ms apart yield one capture request and two events 5000 ms apart
yield two. -/
theorem C8_frame_capture_throttle :
    ∀ (s : ProctoringState) (m m1 m2 : String) (now t : Nat),
      (now - s.lastViolationFrameSave < 4000 → saveViolationFrame m now s = s) ∧
      (4000 ≤ now - s.lastViolationFrameSave →
        (saveViolationFrame m now s).lastViolationFrameSave = now ∧
        (saveViolationFrame m now s).violationFrames =
          s.violationFrames ++ [(m, now)]) ∧
      (4000 ≤ t - s.lastViolationFrameSave →
        (logEvent m2 "violation" (t + 1000)
            (logEvent m1 "violation" t s)).violationFrames.length =
          s.violationFrames.length + 1 ∧
        (logEvent m2 "violation" (t + 5000)
            (logEvent m1 "violation" t s)).violationFrames.length =
          s.violationFrames.length + 2) := by
  intro s m m1 m2 now t
  refine ⟨?_, ?_, ?_⟩
  · intro h
    simp only [saveViolationFrame]
    rw [if_pos h]
  · intro h
    simp only [saveViolationFrame]
    rw [if_neg (by omega)]
    exact ⟨rfl, rfl⟩
  · intro h
    obtain ⟨hf1, hl1⟩ := logEvent_violation_capture_accept m1 t s h
    constructor
    · obtain ⟨hf2, _⟩ := logEvent_violation_capture_drop m2 (t + 1000)
        (logEvent m1 "violation" t s) (by omega)
      rw [hf2, hf1]
      simp
    · obtain ⟨hf2, _⟩ := logEvent_violation_capture_accept m2 (t + 5000)
        (logEvent m1 "violation" t s) (by omega)
      rw [hf2, hf1]
      simp

/-- C8 witness: from the fresh state, captures at 4000 and 5000 ms are
throttled to one, captures at 4000 and 9000 ms both go through. -/
theorem C8_frame_capture_throttle_witness :
    4000 ≤ 4000 - initStateRaw.lastViolationFrameSave ∧
    (logEvent "Multiple faces detected" "violation" (4000 + 1000)
        (logEvent "No face detected" "violation" 4000
          initStateRaw)).violationFrames.length =
      initStateRaw.violationFrames.length + 1 ∧
    (logEvent "Multiple faces detected" "violation" (4000 + 5000)
        (logEvent "No face detected" "violation" 4000
          initStateRaw)).violationFrames.length =
      initStateRaw.violationFrames.length + 2 := by
  refine ⟨by decide, ?_, ?_⟩
  · exact ((C8_frame_capture_throttle initStateRaw "x" "No face detected"
      "Multiple faces detected" 0 4000).2.2 (by decide)).1
  · exact ((C8_frame_capture_throttle initStateRaw "x" "No face detected"
      "Multiple faces detected" 0 4000).2.2 (by decide)).2

/-- C4 counterexample: startMonitoring does not restore the baseline
triple, the history buffers, the violation counters, the previous face
count, the open distraction episode, or the capture throttle clock to
their constructor-initial values. -/
theorem C4_counterexample :
    (startMonitoring 5000 { initStateRaw with
        totalViolations := 7
        attentionViolations := 5
        baselineYaw := 1
        baselinePitch := 2
        baselineGaze := 3
        yawHistoryBuf := [1]
        pitchHistoryBuf := [2]
        gazeHistoryBuf := [3]
        lastFaceCount := 2
        distractionStartTime := some 9
        lastViolationFrameSave := 11 }).totalViolations = 7 ∧
    (startMonitoring 5000 { initStateRaw with
        totalViolations := 7
        attentionViolations := 5
        baselineYaw := 1
        baselinePitch := 2
        baselineGaze := 3
        yawHistoryBuf := [1]
        pitchHistoryBuf := [2]
        gazeHistoryBuf := [3]
        lastFaceCount := 2
        distractionStartTime := some 9
        lastViolationFrameSave := 11 }).attentionViolations = 5 ∧
    (startMonitoring 5000 { initStateRaw with
        totalViolations := 7
        attentionViolations := 5
        baselineYaw := 1
        baselinePitch := 2
        baselineGaze := 3
        yawHistoryBuf := [1]
        pitchHistoryBuf := [2]
        gazeHistoryBuf := [3]
        lastFaceCount := 2
        distractionStartTime := some 9
        lastViolationFrameSave := 11 }).baselineYaw = 1 ∧
    (startMonitoring 5000 { initStateRaw with
        totalViolations := 7
        attentionViolations := 5
        baselineYaw := 1
        baselinePitch := 2
        baselineGaze := 3
        yawHistoryBuf := [1]
        pitchHistoryBuf := [2]
        gazeHistoryBuf := [3]
        lastFaceCount := 2
        distractionStartTime := some 9
        lastViolationFrameSave := 11 }).yawHistoryBuf = [1] ∧
    (startMonitoring 5000 { initStateRaw with
        totalViolations := 7
        attentionViolations := 5
        baselineYaw := 1
        baselinePitch := 2
        baselineGaze := 3
        yawHistoryBuf := [1]
        pitchHistoryBuf := [2]
        gazeHistoryBuf := [3]
        lastFaceCount := 2
        distractionStartTime := some 9
        lastViolationFrameSave := 11 }).lastFaceCount = 2 ∧
    (startMonitoring 5000 { initStateRaw with
        totalViolations := 7
        attentionViolations := 5
        baselineYaw := 1
        baselinePitch := 2
        baselineGaze := 3
        yawHistoryBuf := [1]
        pitchHistoryBuf := [2]
        gazeHistoryBuf := [3]
        lastFaceCount := 2
        distractionStartTime := some 9
        lastViolationFrameSave := 11 }).distractionStartTime = some 9 ∧
    (startMonitoring 5000 { initStateRaw with
        totalViolations := 7
        attentionViolations := 5
        baselineYaw := 1
        baselinePitch := 2
        baselineGaze := 3
        yawHistoryBuf := [1]
        pitchHistoryBuf := [2]
        gazeHistoryBuf := [3]
        lastFaceCount := 2
        distractionStartTime := some 9
        lastViolationFrameSave := 11 }).lastViolationFrameSave = 11 := by
  refine ⟨rfl, rfl, rfl, rfl, rfl, rfl, rfl⟩

/-- C4 amended: startMonitoring resets the stabilization counters, the
confirmed attention and person states, the calibration counter, the two
session logs (which then receive the start entries), the recognition
scheduling state and the stored capture list; it leaves the baseline
triple, the signal-history buffers, both violation counters, the last
face count, the open distraction episode and the capture throttle clock
untouched (those are initialized only at construction). -/
theorem C4_startMonitoring_resets :
    ∀ (s : ProctoringState) (now : Nat),
      (startMonitoring now s).isMonitoring = true ∧
      (startMonitoring now s).sessionStartTime = some now ∧
      (startMonitoring now s).lastAttentionState = AttentionState.unknown ∧
      (startMonitoring now s).lastPersonState = PersonState.unknown ∧
      (startMonitoring now s).calibrationFrames = 0 ∧
      (startMonitoring now s).distractionCounter = 0 ∧
      (startMonitoring now s).focusCounter = 0 ∧
      (startMonitoring now s).unauthorizedCounter = 0 ∧
      (startMonitoring now s).authorizedCounter = 0 ∧
      (startMonitoring now s).lastFaceRecogTime = 0 ∧
      (startMonitoring now s).faceRecognitionStarted = false ∧
      (startMonitoring now s).violationFrames = [] ∧
      (startMonitoring now s).sessionEvents =
        [⟨"Monitoring session started - Calibrating...", "info"⟩] ∧
      (startMonitoring now s).sessionLogs =
        [LogEntry.event "info" "Monitoring session started - Calibrating...",
          LogEntry.sessionStart now] ∧
      (startMonitoring now s).totalViolations = s.totalViolations ∧
      (startMonitoring now s).attentionViolations = s.attentionViolations ∧
      (startMonitoring now s).baselineYaw = s.baselineYaw ∧
      (startMonitoring now s).baselinePitch = s.baselinePitch ∧
      (startMonitoring now s).baselineGaze = s.baselineGaze ∧
      (startMonitoring now s).yawHistoryBuf = s.yawHistoryBuf ∧
      (startMonitoring now s).pitchHistoryBuf = s.pitchHistoryBuf ∧
      (startMonitoring now s).gazeHistoryBuf = s.gazeHistoryBuf ∧
      (startMonitoring now s).lastFaceCount = s.lastFaceCount ∧
      (startMonitoring now s).distractionStartTime = s.distractionStartTime ∧
      (startMonitoring now s).lastViolationFrameSave =
        s.lastViolationFrameSave := by
  intro s now
  simp [startMonitoring, logEvent, saveViolationFrame, addToSessionLog]

/-- logEvent can only move the two violation counters together, so it
preserves the counter inequality. -/
lemma logEvent_inv (m t : String) (now : Nat) (s : ProctoringState)
    (h : s.attentionViolations ≤ s.totalViolations) :
    (logEvent m t now s).attentionViolations ≤
      (logEvent m t now s).totalViolations := by
  by_cases hv : t = "violation"
  · subst hv
    rw [logEvent_totalViolations_violation, logEvent_attentionViolations_violation]
    split_ifs <;> omega
  · rw [logEvent_totalViolations_of_ne m t now s hv,
      logEvent_attentionViolations_of_ne m t now s hv]
    exact h

lemma attentionUpdate_inv (a g : AttentionState) (now : Nat)
    (s : ProctoringState) (h : s.attentionViolations ≤ s.totalViolations) :
    (attentionUpdate a g now s).attentionViolations ≤
      (attentionUpdate a g now s).totalViolations := by
  simp only [attentionUpdate]
  split_ifs <;> first
    | exact h
    | exact logEvent_inv _ _ _ _ h

lemma calibrateBaseline_inv (lms : LandmarkSet) (s : ProctoringState)
    (h : s.attentionViolations ≤ s.totalViolations) :
    (calibrateBaseline lms s).attentionViolations ≤
      (calibrateBaseline lms s).totalViolations := by
  simp only [calibrateBaseline]
  split <;> exact h

lemma analyzeAttention_inv (lms : LandmarkSet) (s : ProctoringState)
    (h : s.attentionViolations ≤ s.totalViolations) :
    (analyzeAttention lms s).2.attentionViolations ≤
      (analyzeAttention lms s).2.totalViolations := h

lemma analyzeGaze_inv (lms : LandmarkSet) (s : ProctoringState)
    (h : s.attentionViolations ≤ s.totalViolations) :
    (analyzeGaze lms s).2.attentionViolations ≤
      (analyzeGaze lms s).2.totalViolations := by
  simp only [analyzeGaze]
  split
  · split
    · exact h
    · exact h
  · exact h

lemma onFaceMeshResults_inv (lmsOpt : Option LandmarkSet) (now : Nat)
    (s : ProctoringState) (h : s.attentionViolations ≤ s.totalViolations) :
    (onFaceMeshResults lmsOpt now s).attentionViolations ≤
      (onFaceMeshResults lmsOpt now s).totalViolations := by
  cases lmsOpt with
  | none =>
    simp only [onFaceMeshResults]
    split_ifs <;> exact h
  | some lms =>
    simp only [onFaceMeshResults]
    split_ifs
    · exact h
    · exact calibrateBaseline_inv lms s h
    · exact attentionUpdate_inv _ _ _ _
        (analyzeGaze_inv _ _ (analyzeAttention_inv _ _
          (logEvent_inv _ _ _ _ h)))
    · exact attentionUpdate_inv _ _ _ _
        (analyzeGaze_inv _ _ (analyzeAttention_inv _ _ h))

lemma onFaceDetectionResults_inv (c now : Nat) (s : ProctoringState)
    (h : s.attentionViolations ≤ s.totalViolations) :
    (onFaceDetectionResults c now s).attentionViolations ≤
      (onFaceDetectionResults c now s).totalViolations := by
  simp only [onFaceDetectionResults, resetFaceRecognitionCounters]
  split_ifs <;> first
    | exact h
    | exact logEvent_inv _ _ _ _ h

lemma performFaceRecognition_inv (d : Option (List ℚ)) (now : Nat)
    (s : ProctoringState) (h : s.attentionViolations ≤ s.totalViolations) :
    (performFaceRecognition d now s).attentionViolations ≤
      (performFaceRecognition d now s).totalViolations := by
  cases d with
  | none =>
    simp only [performFaceRecognition, resetFaceRecognitionCounters]
    split_ifs <;> exact h
  | some descriptor =>
    simp only [performFaceRecognition, resetFaceRecognitionCounters]
    split_ifs <;> first
      | exact h
      | exact logEvent_inv _ _ _ _ h

lemma startMonitoring_inv (now : Nat) (s : ProctoringState)
    (h : s.attentionViolations ≤ s.totalViolations) :
    (startMonitoring now s).attentionViolations ≤
      (startMonitoring now s).totalViolations := by
  simp only [startMonitoring]
  exact logEvent_inv _ _ _ _ h

lemma stopMonitoring_inv (now : Nat) (s : ProctoringState)
    (h : s.attentionViolations ≤ s.totalViolations) :
    (stopMonitoring now s).attentionViolations ≤
      (stopMonitoring now s).totalViolations := by
  simp only [stopMonitoring]
  exact logEvent_inv _ _ _ _ h

lemma saveViolationFrame_inv (m : String) (now : Nat) (s : ProctoringState)
    (h : s.attentionViolations ≤ s.totalViolations) :
    (saveViolationFrame m now s).attentionViolations ≤
      (saveViolationFrame m now s).totalViolations := by
  simp only [saveViolationFrame]
  split_ifs <;> exact h

lemma processVideoTick_inv (t : TickInput) (s : ProctoringState)
    (h : s.attentionViolations ≤ s.totalViolations) :
    (processVideoTick t s).1.attentionViolations ≤
      (processVideoTick t s).1.totalViolations := by
  simp only [processVideoTick]
  split_ifs
  · exact h
  · exact performFaceRecognition_inv _ _ _
      (onFaceMeshResults_inv _ _ _ (onFaceDetectionResults_inv _ _ _ h))
  · exact onFaceMeshResults_inv _ _ _ (onFaceDetectionResults_inv _ _ _ h)

/-- Any externally reachable mutation of the system state. -/
inductive SessionOp
  | start (now : Nat)
  | stop (now : Nat)
  | detection (faceCount now : Nat)
  | mesh (lms : Option LandmarkSet) (now : Nat)
  | recognition (d : Option (List ℚ)) (now : Nat)
  | tick (t : TickInput)
  | rawLog (message etype : String) (now : Nat)
  | structured (e : LogEntry)
  | capture (message : String) (now : Nat)

def applyOp : SessionOp → ProctoringState → ProctoringState
  | SessionOp.start now, s => startMonitoring now s
  | SessionOp.stop now, s => stopMonitoring now s
  | SessionOp.detection c now, s => onFaceDetectionResults c now s
  | SessionOp.mesh l now, s => onFaceMeshResults l now s
  | SessionOp.recognition d now, s => performFaceRecognition d now s
  | SessionOp.tick t, s => (processVideoTick t s).1
  | SessionOp.rawLog m t now, s => logEvent m t now s
  | SessionOp.structured e, s => addToSessionLog e s
  | SessionOp.capture m now, s => saveViolationFrame m now s

def runOps (ops : List SessionOp) (s : ProctoringState) : ProctoringState :=
  ops.foldl (fun t o => applyOp o t) s

lemma applyOp_inv (o : SessionOp) (s : ProctoringState)
    (h : s.attentionViolations ≤ s.totalViolations) :
    (applyOp o s).attentionViolations ≤ (applyOp o s).totalViolations := by
  cases o with
  | start now => exact startMonitoring_inv now s h
  | stop now => exact stopMonitoring_inv now s h
  | detection c now => exact onFaceDetectionResults_inv c now s h
  | mesh l now => exact onFaceMeshResults_inv l now s h
  | recognition d now => exact performFaceRecognition_inv d now s h
  | tick t => exact processVideoTick_inv t s h
  | rawLog m t now => exact logEvent_inv m t now s h
  | structured e => exact h
  | capture m now => exact saveViolationFrame_inv m now s h

lemma runOps_inv (ops : List SessionOp) (s : ProctoringState)
    (h : s.attentionViolations ≤ s.totalViolations) :
    (runOps ops s).attentionViolations ≤ (runOps ops s).totalViolations := by
  induction ops generalizing s with
  | nil => exact h
  | cons o rest ih =>
    exact ih (applyOp o s) (applyOp_inv o s h)

/-- C10: in every state reachable from construction by any sequence of
operations (frame handlers, recognition runs, ticks, log calls, start and
stop), attentionViolations never exceeds totalViolations: the only
increment of attentionViolations sits inside the violation branch of
logEvent, which always increments totalViolations as well, and neither
counter is ever decremented. -/
theorem C10_attention_le_total :
    ∀ (ops : List SessionOp) (stored : Option (Option (List (List ℚ)))),
      (runOps ops (constructorState stored)).attentionViolations ≤
        (runOps ops (constructorState stored)).totalViolations := by
  intro ops stored
  apply runOps_inv
  cases stored with
  | none =>
    exact logEvent_inv _ _ _ _ (Nat.le_refl 0)
  | some p =>
    cases p with
    | none => exact Nat.le_refl 0
    | some l => exact Nat.le_refl 0

/-- Recognizer for face_count_change entries. -/
def isFaceCountChangeEntry : LogEntry → Bool
  | LogEntry.faceCountChange _ _ => true
  | _ => false

@[simp] lemma logEvent_filter_fcc (m t : String) (now : Nat)
    (s : ProctoringState) :
    (logEvent m t now s).sessionLogs.filter isFaceCountChangeEntry =
      s.sessionLogs.filter isFaceCountChangeEntry := by
  simp only [logEvent, saveViolationFrame, addToSessionLog]
  split_ifs <;> simp [List.filter_append, isFaceCountChangeEntry]

/-- The display events the presence handler emits for a previous count
and a current count. -/
def eventsFor (last c : Nat) : List Event :=
  if c = 0 then
    if last ≠ 0 then [⟨"No face detected", "violation"⟩] else []
  else if 1 < c then
    if last ≤ 1 then [⟨"Multiple faces detected", "violation"⟩] else []
  else
    if last ≠ 1 then [⟨"Single face detected - OK", "info"⟩] else []

/-- The face_count_change entries the presence handler appends. -/
def fccFor (last c : Nat) : List LogEntry :=
  if last ≠ c then [LogEntry.faceCountChange last c] else []

lemma detection_step_proj (c now : Nat) (s : ProctoringState)
    (hm : s.isMonitoring = true) :
    (onFaceDetectionResults c now s).isMonitoring = true ∧
    (onFaceDetectionResults c now s).lastFaceCount = c ∧
    (onFaceDetectionResults c now s).sessionEvents =
      s.sessionEvents ++ eventsFor s.lastFaceCount c ∧
    (onFaceDetectionResults c now s).sessionLogs.filter isFaceCountChangeEntry =
      s.sessionLogs.filter isFaceCountChangeEntry ++ fccFor s.lastFaceCount c := by
  simp only [onFaceDetectionResults, resetFaceRecognitionCounters, eventsFor,
    fccFor, hm]
  split_ifs <;>
    simp_all [List.filter_append, isFaceCountChangeEntry, addToSessionLog]

def runDetection (counts : List Nat) (now : Nat) (s : ProctoringState) :
    ProctoringState :=
  counts.foldl (fun t c => onFaceDetectionResults c now t) s

/-- C6: from a monitoring state whose previous face count is 1, the
count sequence [1,1,0,0,1,2,1] emits exactly four display events, in
order: the no-face violation at the first 0, single-face info at the 1
after the 0-run, the multiple-faces violation at the 2, and single-face
info at the final 1; and appends exactly four face_count_change entries,
one per change, carrying the previous and current counts. -/
theorem C6_presence_sequence :
    ∀ (s : ProctoringState) (now : Nat),
      s.isMonitoring = true → s.lastFaceCount = 1 →
      (runDetection [1, 1, 0, 0, 1, 2, 1] now s).sessionEvents =
        s.sessionEvents ++
          [⟨"No face detected", "violation"⟩,
            ⟨"Single face detected - OK", "info"⟩,
            ⟨"Multiple faces detected", "violation"⟩,
            ⟨"Single face detected - OK", "info"⟩] ∧
      (runDetection [1, 1, 0, 0, 1, 2, 1] now s).sessionLogs.filter
          isFaceCountChangeEntry =
        s.sessionLogs.filter isFaceCountChangeEntry ++
          [LogEntry.faceCountChange 1 0, LogEntry.faceCountChange 0 1,
            LogEntry.faceCountChange 1 2, LogEntry.faceCountChange 2 1] := by
  intro s now hm hl
  simp only [runDetection, List.foldl]
  obtain ⟨m1, l1, e1, f1⟩ := detection_step_proj 1 now s hm
  obtain ⟨m2, l2, e2, f2⟩ := detection_step_proj 1 now _ m1
  obtain ⟨m3, l3, e3, f3⟩ := detection_step_proj 0 now _ m2
  obtain ⟨m4, l4, e4, f4⟩ := detection_step_proj 0 now _ m3
  obtain ⟨m5, l5, e5, f5⟩ := detection_step_proj 1 now _ m4
  obtain ⟨m6, l6, e6, f6⟩ := detection_step_proj 2 now _ m5
  obtain ⟨m7, l7, e7, f7⟩ := detection_step_proj 1 now _ m6
  rw [e7, f7, l6, e6, f6, l5, e5, f5, l4, e4, f4, l3, e3, f3, l2, e2, f2, l1,
    e1, f1, hl]
  simp [eventsFor, fccFor]

/-- C6 witness: a concrete monitoring state with previous count 1. -/
theorem C6_presence_sequence_witness :
    ({ initStateRaw with isMonitoring := true, lastFaceCount := 1 } :
        ProctoringState).isMonitoring = true ∧
    ({ initStateRaw with isMonitoring := true, lastFaceCount := 1 } :
        ProctoringState).lastFaceCount = 1 ∧
    (runDetection [1, 1, 0, 0, 1, 2, 1] 0
        { initStateRaw with isMonitoring := true, lastFaceCount := 1 }).sessionEvents =
      ({ initStateRaw with isMonitoring := true, lastFaceCount := 1 } :
          ProctoringState).sessionEvents ++
        [⟨"No face detected", "violation"⟩,
          ⟨"Single face detected - OK", "info"⟩,
          ⟨"Multiple faces detected", "violation"⟩,
          ⟨"Single face detected - OK", "info"⟩] :=
  ⟨rfl, rfl, (C6_presence_sequence _ 0 rfl rfl).1⟩

/-- The fold of bestDistanceSq keeps the over-threshold property iff the
accumulator has it and every newly folded reference is over threshold. -/
lemma bestDistanceSq_go (d : List ℚ) (l : List (List ℚ)) :
    ∀ (acc : Option ℚ),
      isUnauthorizedDistSq (List.foldl
        (fun best ref =>
          match best with
          | none => some (euclideanDistSq ref d)
          | some b => some (min b (euclideanDistSq ref d))) acc l) = true ↔
      (isUnauthorizedDistSq acc = true ∧
        ∀ ref ∈ l, (1/4 : ℚ) < euclideanDistSq ref d) := by
  induction l with
  | nil =>
    intro acc
    simp
  | cons r rest ih =>
    intro acc
    rw [List.foldl_cons, ih]
    cases acc with
    | none =>
      simp [isUnauthorizedDistSq, List.mem_cons]
      try tauto
    | some b =>
      simp [isUnauthorizedDistSq, lt_min_iff, List.mem_cons]
      try tauto

/-- The minimum enrolled distance exceeds the threshold iff every
enrolled distance does (vacuously for an empty enrollment, matching the
initial Infinity). -/
lemma bestDistanceSq_unauth_iff (enrolled : List (List ℚ)) (d : List ℚ) :
    isUnauthorizedDistSq (bestDistanceSq enrolled d) = true ↔
      ∀ ref ∈ enrolled, (1/4 : ℚ) < euclideanDistSq ref d := by
  rw [bestDistanceSq, bestDistanceSq_go]
  simp [isUnauthorizedDistSq]

/-- C5: with exactly one face and a successful detection, the per-frame
classification is Unauthorized iff the minimum Euclidean distance to the
enrolled embeddings exceeds 0.50 (stated on squared distances); the
confirmed transition and its event fire exactly when the matching counter
reaches the 3-frame threshold while the confirmed person state differs;
and a face count of 0 or more than 1, or a failed detection, resets both
identity counters to 0. -/
theorem C5_identity_verification :
    ∀ (s : ProctoringState) (d : List ℚ) (detection : Option (List ℚ))
      (now c : Nat),
      (s.lastFaceCount = 0 ∨ 1 < s.lastFaceCount →
        (performFaceRecognition detection now s).unauthorizedCounter = 0 ∧
        (performFaceRecognition detection now s).authorizedCounter = 0) ∧
      ((performFaceRecognition none now s).unauthorizedCounter = 0 ∧
        (performFaceRecognition none now s).authorizedCounter = 0) ∧
      (s.isMonitoring = true → c = 0 ∨ 1 < c →
        (onFaceDetectionResults c now s).unauthorizedCounter = 0 ∧
        (onFaceDetectionResults c now s).authorizedCounter = 0) ∧
      (s.lastFaceCount = 1 →
        (((performFaceRecognition (some d) now s).unauthorizedCounter =
              s.unauthorizedCounter + 1 ∧
            (performFaceRecognition (some d) now s).authorizedCounter = 0) ↔
          (∀ ref ∈ s.enrolledDescriptors.getD [],
            (1/4 : ℚ) < euclideanDistSq ref d)) ∧
        (((performFaceRecognition (some d) now s).authorizedCounter =
              s.authorizedCounter + 1 ∧
            (performFaceRecognition (some d) now s).unauthorizedCounter = 0) ↔
          ¬ (∀ ref ∈ s.enrolledDescriptors.getD [],
            (1/4 : ℚ) < euclideanDistSq ref d)) ∧
        (((performFaceRecognition (some d) now s).sessionEvents =
              s.sessionEvents ++ [⟨"Wrong person detected", "violation"⟩] ∧
            (performFaceRecognition (some d) now s).lastPersonState =
              PersonState.unauthorized) ↔
          ((∀ ref ∈ s.enrolledDescriptors.getD [],
              (1/4 : ℚ) < euclideanDistSq ref d) ∧
            3 ≤ s.unauthorizedCounter + 1 ∧
            s.lastPersonState ≠ PersonState.unauthorized)) ∧
        (((performFaceRecognition (some d) now s).sessionEvents =
              s.sessionEvents ++ [⟨"Authorized person verified", "info"⟩] ∧
            (performFaceRecognition (some d) now s).lastPersonState =
              PersonState.authorized) ↔
          (¬ (∀ ref ∈ s.enrolledDescriptors.getD [],
              (1/4 : ℚ) < euclideanDistSq ref d) ∧
            3 ≤ s.authorizedCounter + 1 ∧
            s.lastPersonState ≠ PersonState.authorized))) := by
  intro s d detection now c
  refine ⟨?_, ?_, ?_, ?_⟩
  · intro h
    simp only [performFaceRecognition]
    rw [if_pos h]
    exact ⟨rfl, rfl⟩
  · simp only [performFaceRecognition]
    split_ifs <;> exact ⟨rfl, rfl⟩
  · intro hm h
    simp only [onFaceDetectionResults, resetFaceRecognitionCounters, hm]
    split_ifs <;> first
      | (exact ⟨rfl, rfl⟩)
      | simp_all
  · intro h1
    have hcond : ¬ (s.lastFaceCount = 0 ∨ 1 < s.lastFaceCount) := by omega
    simp only [performFaceRecognition]
    rw [if_neg hcond]
    by_cases hu : isUnauthorizedDistSq
        (bestDistanceSq (s.enrolledDescriptors.getD []) d) = true
    · have hforall := (bestDistanceSq_unauth_iff (s.enrolledDescriptors.getD []) d).mp hu
      rw [if_pos hu]
      split_ifs with hc <;>
        simp_all [List.self_eq_append_right]
    · have hforall : ¬ ∀ ref ∈ s.enrolledDescriptors.getD [],
          (1/4 : ℚ) < euclideanDistSq ref d := fun hf =>
        hu ((bestDistanceSq_unauth_iff (s.enrolledDescriptors.getD []) d).mpr hf)
      rw [if_neg hu]
      split_ifs with hc <;>
        simp_all [List.self_eq_append_right]

/-- C5 witness: one face, empty enrollment (minimum distance Infinity,
over threshold), counter at 2 so this frame reaches the 3-frame bar. -/
theorem C5_identity_verification_witness :
    ({ initStateRaw with lastFaceCount := 1, unauthorizedCounter := 2 } :
        ProctoringState).lastFaceCount = 1 ∧
    (performFaceRecognition (some [1]) 0
        { initStateRaw with lastFaceCount := 1, unauthorizedCounter := 2 }).lastPersonState =
      PersonState.unauthorized := by
  refine ⟨rfl, ?_⟩
  have h := ((C5_identity_verification
    { initStateRaw with lastFaceCount := 1, unauthorizedCounter := 2 }
    [1] none 0 0).2.2.2 rfl).2.2.1
  exact (h.mpr ⟨by simp [initStateRaw], by decide, by decide⟩).2

@[simp] lemma addToSessionLog_sessionStartTime (e : LogEntry)
    (s : ProctoringState) :
    (addToSessionLog e s).sessionStartTime = s.sessionStartTime := rfl

@[simp] lemma addToSessionLog_faceRecognitionStarted (e : LogEntry)
    (s : ProctoringState) :
    (addToSessionLog e s).faceRecognitionStarted = s.faceRecognitionStarted := rfl

@[simp] lemma addToSessionLog_lastFaceRecogTime (e : LogEntry)
    (s : ProctoringState) :
    (addToSessionLog e s).lastFaceRecogTime = s.lastFaceRecogTime := rfl

@[simp] lemma analyzeAttention_snd_enrolledDescriptors (lms : LandmarkSet)
    (s : ProctoringState) :
    (analyzeAttention lms s).2.enrolledDescriptors = s.enrolledDescriptors := rfl

@[simp] lemma analyzeAttention_snd_sessionStartTime (lms : LandmarkSet)
    (s : ProctoringState) :
    (analyzeAttention lms s).2.sessionStartTime = s.sessionStartTime := rfl

@[simp] lemma analyzeAttention_snd_faceRecognitionStarted (lms : LandmarkSet)
    (s : ProctoringState) :
    (analyzeAttention lms s).2.faceRecognitionStarted =
      s.faceRecognitionStarted := rfl

@[simp] lemma analyzeAttention_snd_lastFaceRecogTime (lms : LandmarkSet)
    (s : ProctoringState) :
    (analyzeAttention lms s).2.lastFaceRecogTime = s.lastFaceRecogTime := rfl

@[simp] lemma analyzeGaze_snd_enrolledDescriptors (lms : LandmarkSet)
    (s : ProctoringState) :
    (analyzeGaze lms s).2.enrolledDescriptors = s.enrolledDescriptors := by
  simp only [analyzeGaze]
  split <;> first | rfl | (split <;> rfl)

@[simp] lemma analyzeGaze_snd_sessionStartTime (lms : LandmarkSet)
    (s : ProctoringState) :
    (analyzeGaze lms s).2.sessionStartTime = s.sessionStartTime := by
  simp only [analyzeGaze]
  split <;> first | rfl | (split <;> rfl)

@[simp] lemma analyzeGaze_snd_faceRecognitionStarted (lms : LandmarkSet)
    (s : ProctoringState) :
    (analyzeGaze lms s).2.faceRecognitionStarted = s.faceRecognitionStarted := by
  simp only [analyzeGaze]
  split <;> first | rfl | (split <;> rfl)

@[simp] lemma analyzeGaze_snd_lastFaceRecogTime (lms : LandmarkSet)
    (s : ProctoringState) :
    (analyzeGaze lms s).2.lastFaceRecogTime = s.lastFaceRecogTime := by
  simp only [analyzeGaze]
  split <;> first | rfl | (split <;> rfl)

@[simp] lemma calibrateBaseline_enrolledDescriptors (lms : LandmarkSet)
    (s : ProctoringState) :
    (calibrateBaseline lms s).enrolledDescriptors = s.enrolledDescriptors := by
  simp only [calibrateBaseline]
  split <;> rfl

@[simp] lemma calibrateBaseline_sessionStartTime (lms : LandmarkSet)
    (s : ProctoringState) :
    (calibrateBaseline lms s).sessionStartTime = s.sessionStartTime := by
  simp only [calibrateBaseline]
  split <;> rfl

@[simp] lemma calibrateBaseline_faceRecognitionStarted (lms : LandmarkSet)
    (s : ProctoringState) :
    (calibrateBaseline lms s).faceRecognitionStarted =
      s.faceRecognitionStarted := by
  simp only [calibrateBaseline]
  split <;> rfl

@[simp] lemma calibrateBaseline_lastFaceRecogTime (lms : LandmarkSet)
    (s : ProctoringState) :
    (calibrateBaseline lms s).lastFaceRecogTime = s.lastFaceRecogTime := by
  simp only [calibrateBaseline]
  split <;> rfl

@[simp] lemma attentionUpdate_enrolledDescriptors (a g : AttentionState)
    (now : Nat) (s : ProctoringState) :
    (attentionUpdate a g now s).enrolledDescriptors = s.enrolledDescriptors := by
  simp only [attentionUpdate]
  split_ifs <;> simp

@[simp] lemma attentionUpdate_sessionStartTime (a g : AttentionState)
    (now : Nat) (s : ProctoringState) :
    (attentionUpdate a g now s).sessionStartTime = s.sessionStartTime := by
  simp only [attentionUpdate]
  split_ifs <;> simp

@[simp] lemma attentionUpdate_faceRecognitionStarted (a g : AttentionState)
    (now : Nat) (s : ProctoringState) :
    (attentionUpdate a g now s).faceRecognitionStarted =
      s.faceRecognitionStarted := by
  simp only [attentionUpdate]
  split_ifs <;> simp

@[simp] lemma attentionUpdate_lastFaceRecogTime (a g : AttentionState)
    (now : Nat) (s : ProctoringState) :
    (attentionUpdate a g now s).lastFaceRecogTime = s.lastFaceRecogTime := by
  simp only [attentionUpdate]
  split_ifs <;> simp

@[simp] lemma onFaceMeshResults_enrolledDescriptors (lmsOpt : Option LandmarkSet)
    (now : Nat) (s : ProctoringState) :
    (onFaceMeshResults lmsOpt now s).enrolledDescriptors =
      s.enrolledDescriptors := by
  cases lmsOpt with
  | none => simp only [onFaceMeshResults]; split_ifs <;> rfl
  | some lms =>
    simp only [onFaceMeshResults]
    split_ifs <;> simp

@[simp] lemma onFaceDetectionResults_enrolledDescriptors (c now : Nat)
    (s : ProctoringState) :
    (onFaceDetectionResults c now s).enrolledDescriptors =
      s.enrolledDescriptors := by
  simp only [onFaceDetectionResults, resetFaceRecognitionCounters]
  split_ifs <;> simp

lemma faceRecognitionDue_none (now : Nat) (s : ProctoringState)
    (h : s.enrolledDescriptors = none) :
    faceRecognitionDue now s = false := by
  simp [faceRecognitionDue, h]

lemma processVideoTick_none (t : TickInput) (s : ProctoringState)
    (h : s.enrolledDescriptors = none) :
    (processVideoTick t s).2 = false ∧
    (processVideoTick t s).1.enrolledDescriptors = none := by
  simp only [processVideoTick]
  split_ifs with h1 h2
  · exact ⟨rfl, h⟩
  · exfalso
    rw [faceRecognitionDue_none _ _ (by simp [h])] at h2
    exact Bool.false_ne_true h2
  · exact ⟨rfl, by simp [h]⟩

lemma runTicks_go (ts : List TickInput) :
    ∀ (p : ProctoringState × Nat), p.1.enrolledDescriptors = none →
      (ts.foldl
        (fun q t =>
          ((processVideoTick t q.1).1,
            q.2 + (if (processVideoTick t q.1).2 then 1 else 0))) p).2 = p.2 ∧
      (ts.foldl
        (fun q t =>
          ((processVideoTick t q.1).1,
            q.2 + (if (processVideoTick t q.1).2 then 1 else 0))) p).1.enrolledDescriptors
        = none := by
  induction ts with
  | nil =>
    intro p h
    exact ⟨rfl, h⟩
  | cons t rest ih =>
    intro p h
    rw [List.foldl_cons]
    have hr := processVideoTick_none t p.1 h
    have step_eq :
        ((processVideoTick t p.1).1,
          p.2 + if (processVideoTick t p.1).2 then 1 else 0) =
        ((processVideoTick t p.1).1, p.2) := by
      rw [hr.1]
      simp
    rw [step_eq]
    exact ih ((processVideoTick t p.1).1, p.2) hr.2

/-- C9 counterexample: a malformed persisted embedding string is caught
with no state change at all — in particular no error event is appended to
the session event list (an error event appears only when nothing is
stored). -/
theorem C9_counterexample :
    constructorState (some none) = initStateRaw ∧
    initStateRaw.sessionEvents = [] :=
  ⟨rfl, rfl⟩

/-- C9 amended: the malformed-JSON parse error is caught (construction
completes with unchanged state, the report goes only to the console
diagnostic channel, not to the session event log) and the identity
verifier is inert for the entire session: no processVideo tick ever
invokes face recognition. -/
theorem C9_malformed_enrollment_inert :
    ∀ (ts : List TickInput) (now0 : Nat),
      constructorState (some none) = initStateRaw ∧
      (runTicks ts (startMonitoring now0 (constructorState (some none)))).2 = 0 := by
  intro ts now0
  refine ⟨rfl, ?_⟩
  have h0 : (startMonitoring now0 (constructorState (some none))).enrolledDescriptors
      = none := by
    simp [startMonitoring, constructorState, loadEnrolledFace, initStateRaw]
  simp only [runTicks]
  exact (runTicks_go ts (startMonitoring now0 (constructorState (some none)), 0) h0).1

/-- The closed form of the EMA recurrence after folding a whole sample
list: the initial value decays geometrically and each sample enters with
weight alpha times the decay for the samples after it. -/
def emaClosedForm (alpha b0 : ℚ) (xs : List ℚ) : ℚ :=
  b0 * (1 - alpha) ^ xs.length +
    alpha * ∑ i ∈ Finset.range xs.length,
      xs.getD i 0 * (1 - alpha) ^ (xs.length - 1 - i)

lemma foldl_emaStep_closed (alpha : ℚ) (xs : List ℚ) :
    ∀ b0 : ℚ, xs.foldl (emaStep alpha) b0 = emaClosedForm alpha b0 xs := by
  induction xs with
  | nil =>
    intro b0
    simp [emaClosedForm, emaStep]
  | cons x rest ih =>
    intro b0
    rw [List.foldl_cons, ih]
    simp only [emaClosedForm, List.length_cons, emaStep]
    rw [Finset.sum_range_succ']
    have hterm : ∀ i ∈ Finset.range rest.length,
        (x :: rest).getD (i + 1) 0 * (1 - alpha) ^ (rest.length + 1 - 1 - (i + 1)) =
        rest.getD i 0 * (1 - alpha) ^ (rest.length - 1 - i) := by
      intro i hi
      have : rest.length + 1 - 1 - (i + 1) = rest.length - 1 - i := by omega
      rw [this]
      rfl
    rw [Finset.sum_congr rfl hterm]
    have hzero : ((x :: rest).getD 0 0 * (1 - alpha) ^ (rest.length + 1 - 1 - 0)) =
        x * (1 - alpha) ^ rest.length := by
      have : rest.length + 1 - 1 - 0 = rest.length := by omega
      rw [this]
      rfl
    rw [hzero]
    ring

@[simp] lemma calibrateBaseline_calibrationFrames (lms : LandmarkSet)
    (s : ProctoringState) :
    (calibrateBaseline lms s).calibrationFrames = s.calibrationFrames := by
  simp only [calibrateBaseline]
  split <;> rfl

@[simp] lemma calibrateBaseline_isMonitoring (lms : LandmarkSet)
    (s : ProctoringState) :
    (calibrateBaseline lms s).isMonitoring = s.isMonitoring := by
  simp only [calibrateBaseline]
  split <;> rfl

/-- calibrateBaseline as an explicit record update: EMA on yaw and pitch,
EMA on gaze only when the averaged sample is computable. -/
lemma calibrateBaseline_eq (lms : LandmarkSet) (s : ProctoringState) :
    calibrateBaseline lms s = { s with
      baselineYaw := emaStep (1/10) s.baselineYaw (rawYaw lms)
      baselinePitch := emaStep (1/10) s.baselinePitch (rawPitch lms)
      baselineGaze :=
        (rawGazeSample lms).elim s.baselineGaze
          (fun g => emaStep (1/10) s.baselineGaze g) } := by
  cases h : rawGazeSample lms with
  | none => simp [calibrateBaseline, h]
  | some => simp [calibrateBaseline, h]

/-- The calibration-phase step of onFaceMeshResults. -/
lemma onFaceMeshResults_calib_step (lms : LandmarkSet) (now : Nat)
    (s : ProctoringState) (hm : s.isMonitoring = true)
    (hc : s.calibrationFrames < 45) :
    onFaceMeshResults (some lms) now s =
      { calibrateBaseline lms s with
        calibrationFrames := s.calibrationFrames + 1 } := by
  simp only [onFaceMeshResults, hm]
  rw [if_neg (by simp), if_pos hc]
  simp [calibrateBaseline_calibrationFrames]

def meshRun (fs : List (LandmarkSet × Nat)) (s : ProctoringState) :
    ProctoringState :=
  fs.foldl (fun t f => onFaceMeshResults (some f.1) f.2 t) s

/-- Running at most the 45 calibration frames only folds the EMA into the
three baselines and advances the calibration counter; every other field
is untouched. -/
lemma meshRun_calib (fs : List (LandmarkSet × Nat)) :
    ∀ s : ProctoringState, s.isMonitoring = true →
      s.calibrationFrames + fs.length ≤ 45 →
      meshRun fs s = { s with
        baselineYaw :=
          (fs.map (fun f => rawYaw f.1)).foldl (emaStep (1/10)) s.baselineYaw
        baselinePitch :=
          (fs.map (fun f => rawPitch f.1)).foldl (emaStep (1/10)) s.baselinePitch
        baselineGaze :=
          (fs.filterMap (fun f => rawGazeSample f.1)).foldl (emaStep (1/10))
            s.baselineGaze
        calibrationFrames := s.calibrationFrames + fs.length } := by
  induction fs with
  | nil =>
    intro s hm hc
    rfl
  | cons f rest ih =>
    intro s hm hc
    have hstep := onFaceMeshResults_calib_step f.1 f.2 s hm (by
      simp only [List.length_cons] at hc
      omega)
    have hm2 : (onFaceMeshResults (some f.1) f.2 s).isMonitoring = true := by
      rw [hstep]
      simp [hm]
    have hc2 : (onFaceMeshResults (some f.1) f.2 s).calibrationFrames +
        rest.length ≤ 45 := by
      rw [hstep]
      simp only [List.length_cons] at hc
      simp
      omega
    have hrun : meshRun (f :: rest) s =
        meshRun rest (onFaceMeshResults (some f.1) f.2 s) := rfl
    rw [hrun, ih _ hm2 hc2, hstep, calibrateBaseline_eq]
    cases hg : rawGazeSample f.1 with
    | none =>
      simp only [List.map_cons, List.foldl_cons, List.filterMap_cons, hg,
        List.length_cons, Option.elim]
      congr 1
      omega
    | some g =>
      simp only [List.map_cons, List.foldl_cons, List.filterMap_cons, hg,
        List.length_cons, Option.elim]
      congr 1
      omega

/-- Recognizer for calibration_complete entries. -/
def isCalibCompleteEntry : LogEntry → Bool
  | LogEntry.calibrationComplete _ _ _ => true
  | _ => false

/-- How many calibration_complete entries a log holds. -/
def countCalib (l : List LogEntry) : Nat :=
  (l.filter isCalibCompleteEntry).length

@[simp] lemma logEvent_filter_calib (m t : String) (now : Nat)
    (s : ProctoringState) :
    (logEvent m t now s).sessionLogs.filter isCalibCompleteEntry =
      s.sessionLogs.filter isCalibCompleteEntry := by
  simp only [logEvent, saveViolationFrame, addToSessionLog]
  split_ifs <;> simp [List.filter_append, isCalibCompleteEntry]

@[simp] lemma analyzeAttention_snd_sessionLogs (lms : LandmarkSet)
    (s : ProctoringState) :
    (analyzeAttention lms s).2.sessionLogs = s.sessionLogs := rfl

@[simp] lemma analyzeAttention_snd_sessionEvents (lms : LandmarkSet)
    (s : ProctoringState) :
    (analyzeAttention lms s).2.sessionEvents = s.sessionEvents := rfl

@[simp] lemma analyzeAttention_snd_calibrationFrames (lms : LandmarkSet)
    (s : ProctoringState) :
    (analyzeAttention lms s).2.calibrationFrames = s.calibrationFrames := rfl

@[simp] lemma analyzeAttention_snd_isMonitoring (lms : LandmarkSet)
    (s : ProctoringState) :
    (analyzeAttention lms s).2.isMonitoring = s.isMonitoring := rfl

@[simp] lemma analyzeAttention_snd_distractionCounter (lms : LandmarkSet)
    (s : ProctoringState) :
    (analyzeAttention lms s).2.distractionCounter = s.distractionCounter := rfl

@[simp] lemma analyzeAttention_snd_focusCounter (lms : LandmarkSet)
    (s : ProctoringState) :
    (analyzeAttention lms s).2.focusCounter = s.focusCounter := rfl

@[simp] lemma analyzeGaze_snd_sessionLogs (lms : LandmarkSet)
    (s : ProctoringState) :
    (analyzeGaze lms s).2.sessionLogs = s.sessionLogs := by
  simp only [analyzeGaze]
  split <;> first | rfl | (split <;> rfl)

@[simp] lemma analyzeGaze_snd_sessionEvents (lms : LandmarkSet)
    (s : ProctoringState) :
    (analyzeGaze lms s).2.sessionEvents = s.sessionEvents := by
  simp only [analyzeGaze]
  split <;> first | rfl | (split <;> rfl)

@[simp] lemma analyzeGaze_snd_calibrationFrames (lms : LandmarkSet)
    (s : ProctoringState) :
    (analyzeGaze lms s).2.calibrationFrames = s.calibrationFrames := by
  simp only [analyzeGaze]
  split <;> first | rfl | (split <;> rfl)

@[simp] lemma analyzeGaze_snd_isMonitoring (lms : LandmarkSet)
    (s : ProctoringState) :
    (analyzeGaze lms s).2.isMonitoring = s.isMonitoring := by
  simp only [analyzeGaze]
  split <;> first | rfl | (split <;> rfl)

@[simp] lemma analyzeGaze_snd_distractionCounter (lms : LandmarkSet)
    (s : ProctoringState) :
    (analyzeGaze lms s).2.distractionCounter = s.distractionCounter := by
  simp only [analyzeGaze]
  split <;> first | rfl | (split <;> rfl)

@[simp] lemma analyzeGaze_snd_focusCounter (lms : LandmarkSet)
    (s : ProctoringState) :
    (analyzeGaze lms s).2.focusCounter = s.focusCounter := by
  simp only [analyzeGaze]
  split <;> first | rfl | (split <;> rfl)

@[simp] lemma attentionUpdate_calibrationFrames (a g : AttentionState)
    (now : Nat) (s : ProctoringState) :
    (attentionUpdate a g now s).calibrationFrames = s.calibrationFrames := by
  simp only [attentionUpdate]
  split_ifs <;> simp

@[simp] lemma attentionUpdate_isMonitoring (a g : AttentionState)
    (now : Nat) (s : ProctoringState) :
    (attentionUpdate a g now s).isMonitoring = s.isMonitoring := by
  simp only [attentionUpdate]
  split_ifs <;> simp

@[simp] lemma attentionUpdate_filter_calib (a g : AttentionState)
    (now : Nat) (s : ProctoringState) :
    (attentionUpdate a g now s).sessionLogs.filter isCalibCompleteEntry =
      s.sessionLogs.filter isCalibCompleteEntry := by
  simp only [attentionUpdate, addToSessionLog]
  split_ifs <;> simp [List.filter_append, isCalibCompleteEntry]

/-- When neither stabilization counter can reach the threshold this
frame, the attention update changes no log, no event, and no confirmed
state machinery beyond the counters themselves. -/
lemma attentionUpdate_small (a g : AttentionState) (now : Nat)
    (s : ProctoringState) (hd : s.distractionCounter + 1 < 3)
    (hf : s.focusCounter + 1 < 3) :
    (attentionUpdate a g now s).sessionLogs = s.sessionLogs ∧
    (attentionUpdate a g now s).sessionEvents = s.sessionEvents := by
  simp only [attentionUpdate]
  split_ifs with h1 h2 h3 h4 <;>
    first
      | (exact ⟨rfl, rfl⟩)
      | (exfalso; simp_all; try omega)

/-- The post-calibration step keeps the calibration counter at 46, stays
monitoring, and appends no calibration_complete entry. -/
lemma onFaceMeshResults_post (lms : LandmarkSet) (now : Nat)
    (s : ProctoringState) (hm : s.isMonitoring = true)
    (hc : s.calibrationFrames = 46) :
    (onFaceMeshResults (some lms) now s).sessionLogs.filter isCalibCompleteEntry
      = s.sessionLogs.filter isCalibCompleteEntry ∧
    (onFaceMeshResults (some lms) now s).calibrationFrames = 46 ∧
    (onFaceMeshResults (some lms) now s).isMonitoring = true := by
  simp only [onFaceMeshResults, hm]
  rw [if_neg (by simp), if_neg (by omega), if_neg (by omega)]
  refine ⟨?_, ?_, ?_⟩ <;> simp [hc, hm]

lemma meshRun_postCalib (rest : List (LandmarkSet × Nat)) :
    ∀ s : ProctoringState, s.isMonitoring = true → s.calibrationFrames = 46 →
      (meshRun rest s).sessionLogs.filter isCalibCompleteEntry =
        s.sessionLogs.filter isCalibCompleteEntry ∧
      (meshRun rest s).calibrationFrames = 46 ∧
      (meshRun rest s).isMonitoring = true := by
  induction rest with
  | nil =>
    intro s hm hc
    exact ⟨rfl, hc, hm⟩
  | cons f frest ih =>
    intro s hm hc
    obtain ⟨hl, hcf, hmo⟩ := onFaceMeshResults_post f.1 f.2 s hm hc
    have hrun : meshRun (f :: frest) s =
        meshRun frest (onFaceMeshResults (some f.1) f.2 s) := rfl
    rw [hrun]
    obtain ⟨hl2, hcf2, hmo2⟩ := ih _ hmo hcf
    exact ⟨hl2.trans hl, hcf2, hmo2⟩

lemma logEvent_sessionLogs_of_ne (m t : String) (now : Nat)
    (s : ProctoringState) (h : t ≠ "violation") :
    (logEvent m t now s).sessionLogs =
      s.sessionLogs ++ [LogEntry.event t m] := by
  simp only [logEvent, saveViolationFrame, addToSessionLog]
  split_ifs with h1 <;> first | (exact absurd h1 h) | rfl

/-- When both counters are still zero, running the two analyzers and the
attention update appends no log entry. -/
lemma analyzeUpdate_logs (lms : LandmarkSet) (now : Nat)
    (t : ProctoringState) (hd : t.distractionCounter = 0)
    (hf : t.focusCounter = 0) :
    (attentionUpdate (analyzeAttention lms t).1
      (analyzeGaze lms (analyzeAttention lms t).2).1 now
      (analyzeGaze lms (analyzeAttention lms t).2).2).sessionLogs =
      t.sessionLogs := by
  obtain ⟨h1, _⟩ := attentionUpdate_small (analyzeAttention lms t).1
    (analyzeGaze lms (analyzeAttention lms t).2).1 now
    (analyzeGaze lms (analyzeAttention lms t).2).2
    (by simp [hd]) (by simp [hf])
  rw [h1]
  simp

/-- The one-shot calibration-complete transition on the frame where the
counter sits at exactly 45. -/
lemma onFaceMeshResults_46_step (lms : LandmarkSet) (now : Nat)
    (s : ProctoringState) (hm : s.isMonitoring = true)
    (hc : s.calibrationFrames = 45) (hd : s.distractionCounter = 0)
    (hf : s.focusCounter = 0) :
    (onFaceMeshResults (some lms) now s).sessionLogs =
      s.sessionLogs ++
        [LogEntry.event "info" "Calibration complete - Monitoring attention",
          LogEntry.calibrationComplete s.baselineYaw s.baselinePitch
            s.baselineGaze] ∧
    (onFaceMeshResults (some lms) now s).calibrationFrames = 46 ∧
    (onFaceMeshResults (some lms) now s).isMonitoring = true := by
  simp only [onFaceMeshResults, hm]
  rw [if_neg (by simp), if_neg (by omega), if_pos hc]
  refine ⟨?_, ?_, ?_⟩
  · rw [analyzeUpdate_logs]
    · simp [addToSessionLog,
        logEvent_sessionLogs_of_ne _ "info" now s (by decide)]
    · simp [hd]
    · simp [hf]
  · simp [hc]
  · simp [hm]

lemma meshRun_append (l1 l2 : List (LandmarkSet × Nat)) (s : ProctoringState) :
    meshRun (l1 ++ l2) s = meshRun l2 (meshRun l1 s) := by
  simp [meshRun, List.foldl_append]

/-- C2: for the first 45 landmark frames after a session start the mesh
handler only folds the baselines and advances the calibration counter —
no event, no log entry, no history or stabilization-counter change, so
no attention or gaze classification happens and no attention violation
can be emitted; exactly one calibration_complete entry exists once at
least 46 landmark frames were processed, and the 46th frame appends it
together with the info event entry, carrying the baseline snapshot. -/
theorem C2_calibration_window :
    ∀ (fs : List (LandmarkSet × Nat)) (s0 : ProctoringState),
      s0.isMonitoring = true → s0.calibrationFrames = 0 →
      s0.distractionCounter = 0 → s0.focusCounter = 0 →
      s0.sessionLogs.filter isCalibCompleteEntry = [] →
      (fs.length ≤ 45 →
        meshRun fs s0 = { s0 with
          baselineYaw :=
            (fs.map (fun f => rawYaw f.1)).foldl (emaStep (1/10)) s0.baselineYaw
          baselinePitch :=
            (fs.map (fun f => rawPitch f.1)).foldl (emaStep (1/10))
              s0.baselinePitch
          baselineGaze :=
            (fs.filterMap (fun f => rawGazeSample f.1)).foldl (emaStep (1/10))
              s0.baselineGaze
          calibrationFrames := fs.length }) ∧
      countCalib (meshRun fs s0).sessionLogs =
        (if 46 ≤ fs.length then 1 else 0) ∧
      (∀ f46 : LandmarkSet × Nat, fs.length = 45 →
        (meshRun (fs ++ [f46]) s0).sessionLogs =
          (meshRun fs s0).sessionLogs ++
            [LogEntry.event "info" "Calibration complete - Monitoring attention",
              LogEntry.calibrationComplete (meshRun fs s0).baselineYaw
                (meshRun fs s0).baselinePitch (meshRun fs s0).baselineGaze]) := by
  intro fs s0 hm hc0 hd0 hf0 hfil
  have hpartA : fs.length ≤ 45 →
      meshRun fs s0 = { s0 with
        baselineYaw :=
          (fs.map (fun f => rawYaw f.1)).foldl (emaStep (1/10)) s0.baselineYaw
        baselinePitch :=
          (fs.map (fun f => rawPitch f.1)).foldl (emaStep (1/10))
            s0.baselinePitch
        baselineGaze :=
          (fs.filterMap (fun f => rawGazeSample f.1)).foldl (emaStep (1/10))
            s0.baselineGaze
        calibrationFrames := fs.length } := by
    intro hlen
    rw [meshRun_calib fs s0 hm (by omega)]
    simp [hc0]
  have hstep46 : ∀ (g : List (LandmarkSet × Nat)) (f46 : LandmarkSet × Nat),
      g.length = 45 →
      (onFaceMeshResults (some f46.1) f46.2 (meshRun g s0)).sessionLogs =
        (meshRun g s0).sessionLogs ++
          [LogEntry.event "info" "Calibration complete - Monitoring attention",
            LogEntry.calibrationComplete (meshRun g s0).baselineYaw
              (meshRun g s0).baselinePitch (meshRun g s0).baselineGaze] ∧
      (onFaceMeshResults (some f46.1) f46.2 (meshRun g s0)).calibrationFrames = 46 ∧
      (onFaceMeshResults (some f46.1) f46.2 (meshRun g s0)).isMonitoring = true ∧
      (meshRun g s0).sessionLogs.filter isCalibCompleteEntry = [] := by
    intro g f46 hg
    have hrec := meshRun_calib g s0 hm (by omega)
    have hmon : (meshRun g s0).isMonitoring = true := by
      rw [hrec]; exact hm
    have hcal : (meshRun g s0).calibrationFrames = 45 := by
      rw [hrec]; simp [hc0, hg]
    have hdc : (meshRun g s0).distractionCounter = 0 := by
      rw [hrec]; exact hd0
    have hfc : (meshRun g s0).focusCounter = 0 := by
      rw [hrec]; exact hf0
    obtain ⟨hl, hcf, hmo⟩ :=
      onFaceMeshResults_46_step f46.1 f46.2 (meshRun g s0) hmon hcal hdc hfc
    refine ⟨hl, hcf, hmo, ?_⟩
    rw [hrec]
    exact hfil
  refine ⟨hpartA, ?_, ?_⟩
  · by_cases hlen : fs.length ≤ 45
    · rw [hpartA hlen]
      simp only [countCalib]
      rw [if_neg (by omega)]
      simp [hfil]
    · have hdecomp : fs = fs.take 45 ++ fs.drop 45 :=
        (List.take_append_drop 45 fs).symm
      obtain ⟨f46, rest, hdrop⟩ : ∃ a l, fs.drop 45 = a :: l := by
        cases hd2 : fs.drop 45 with
        | nil =>
          exfalso
          have := List.length_drop 45 fs
          rw [hd2] at this
          simp at this
          omega
        | cons a l => exact ⟨a, l, rfl⟩
      have hlen45 : (fs.take 45).length = 45 := by
        simp [List.length_take]
        omega
      have hrw : meshRun fs s0 =
          meshRun rest (onFaceMeshResults (some f46.1) f46.2
            (meshRun (fs.take 45) s0)) := by
        conv_lhs => rw [hdecomp, hdrop]
        rw [meshRun_append]
        rfl
      obtain ⟨hl, hcf, hmo, hfil45⟩ := hstep46 (fs.take 45) f46 hlen45
      obtain ⟨hpost, _, _⟩ := meshRun_postCalib rest _ hmo hcf
      rw [hrw]
      simp only [countCalib]
      rw [hpost, hl, if_pos (by omega)]
      simp [List.filter_append, hfil45, isCalibCompleteEntry]
  · intro f46 hlen
    rw [meshRun_append]
    exact (hstep46 fs f46 hlen).1

/-- C2 witness: 46 trivial landmark frames from a freshly started
session produce exactly one calibration_complete entry. -/
theorem C2_calibration_window_witness :
    (startMonitoring 0 initStateRaw).isMonitoring = true ∧
    (startMonitoring 0 initStateRaw).calibrationFrames = 0 ∧
    (startMonitoring 0 initStateRaw).sessionLogs.filter isCalibCompleteEntry
      = [] ∧
    countCalib (meshRun
        (List.replicate 46
          (⟨⟨0, 0⟩, ⟨0, 0⟩, ⟨0, 0⟩, ⟨0, 0⟩, ⟨0, 0⟩, none, none⟩, 0))
        (startMonitoring 0 initStateRaw)).sessionLogs =
      (if 46 ≤ (List.replicate 46
          ((⟨⟨⟨0, 0⟩, ⟨0, 0⟩, ⟨0, 0⟩, ⟨0, 0⟩, ⟨0, 0⟩, none, none⟩, 0⟩ :
            LandmarkSet × Nat))).length then 1 else 0) := by
  refine ⟨rfl, rfl, rfl, ?_⟩
  exact (C2_calibration_window _ (startMonitoring 0 initStateRaw)
    rfl rfl rfl rfl rfl).2.1

/-- C3: after exactly 45 calibration frames from the fresh zero
baselines, yaw and pitch baselines equal the closed-form EMA (alpha 0.1)
of the 45 raw samples, and the gaze baseline is the same recurrence
folded over exactly the frames whose averaged per-eye gaze ratio was
computable. -/
theorem C3_baseline_closed_form :
    ∀ (fs : List (LandmarkSet × Nat)) (s0 : ProctoringState),
      s0.isMonitoring = true → s0.calibrationFrames = 0 →
      s0.baselineYaw = 0 → s0.baselinePitch = 0 → s0.baselineGaze = 0 →
      fs.length = 45 →
      (meshRun fs s0).baselineYaw =
        emaClosedForm (1/10) 0 (fs.map (fun f => rawYaw f.1)) ∧
      (meshRun fs s0).baselinePitch =
        emaClosedForm (1/10) 0 (fs.map (fun f => rawPitch f.1)) ∧
      (meshRun fs s0).baselineGaze =
        (fs.filterMap (fun f => rawGazeSample f.1)).foldl (emaStep (1/10)) 0 := by
  intro fs s0 hm hc hby hbp hbg hlen
  rw [meshRun_calib fs s0 hm (by omega)]
  refine ⟨?_, ?_, ?_⟩ <;>
    simp [hby, hbp, hbg, foldl_emaStep_closed]

/-- C3 witness: 45 trivial landmark frames from the fresh session. -/
theorem C3_baseline_closed_form_witness :
    (startMonitoring 0 initStateRaw).baselineYaw = 0 ∧
    (List.replicate 45
      ((⟨⟨⟨0, 0⟩, ⟨0, 0⟩, ⟨0, 0⟩, ⟨0, 0⟩, ⟨0, 0⟩, none, none⟩, 0⟩ :
        LandmarkSet × Nat))).length = 45 ∧
    (meshRun
        (List.replicate 45
          (⟨⟨0, 0⟩, ⟨0, 0⟩, ⟨0, 0⟩, ⟨0, 0⟩, ⟨0, 0⟩, none, none⟩, 0))
        (startMonitoring 0 initStateRaw)).baselineYaw =
      emaClosedForm (1/10) 0
        ((List.replicate 45
          ((⟨⟨⟨0, 0⟩, ⟨0, 0⟩, ⟨0, 0⟩, ⟨0, 0⟩, ⟨0, 0⟩, none, none⟩, 0⟩ :
            LandmarkSet × Nat))).map (fun f => rawYaw f.1)) := by
  refine ⟨rfl, by simp, ?_⟩
  exact (C3_baseline_closed_form _ (startMonitoring 0 initStateRaw)
    rfl rfl rfl rfl rfl (by simp)).1

/-- One post-calibration frame as the attention state machine sees it:
the two per-frame classifications and the frame timestamp. -/
structure AttnFrame where
  attention : AttentionState
  gaze : AttentionState
  time : Nat
deriving DecidableEq, Repr

/-- The per-frame-Distracted predicate the handler branches on. -/
def isDistractedFrame (f : AttnFrame) : Bool :=
  decide (f.attention = AttentionState.distracted ∨
    f.gaze = AttentionState.distracted)

/-- Fold the attention state machine over a frame trace. -/
def runAttention (fs : List AttnFrame) (s : ProctoringState) :
    ProctoringState :=
  fs.foldl (fun t f => attentionUpdate f.attention f.gaze f.time t) s

/-- The maximal all-Distracted suffix of a trace, in chronological order:
the current consecutive distracted run. -/
def distractedRun (fs : List AttnFrame) : List AttnFrame :=
  (fs.reverse.takeWhile isDistractedFrame).reverse

lemma distractedRun_append (fs : List AttnFrame) (f : AttnFrame) :
    distractedRun (fs ++ [f]) =
      if isDistractedFrame f then distractedRun fs ++ [f] else [] := by
  by_cases hf : isDistractedFrame f = true
  · simp [distractedRun, List.takeWhile_cons, hf]
  · simp [distractedRun, List.takeWhile_cons, hf]

lemma attentionUpdate_distracted (a g : AttentionState) (now : Nat)
    (s : ProctoringState)
    (h : a = AttentionState.distracted ∨ g = AttentionState.distracted) :
    (attentionUpdate a g now s).distractionCounter =
      s.distractionCounter + 1 ∧
    (attentionUpdate a g now s).distractionStartTime =
      (if s.distractionStartTime = none then some now
        else s.distractionStartTime) := by
  simp only [attentionUpdate]
  rw [if_pos h]
  split_ifs <;> simp_all

lemma attentionUpdate_focused (a g : AttentionState) (now : Nat)
    (s : ProctoringState)
    (h : ¬ (a = AttentionState.distracted ∨ g = AttentionState.distracted)) :
    (attentionUpdate a g now s).distractionCounter = 0 ∧
    (attentionUpdate a g now s).distractionStartTime = none ∧
    ((attentionUpdate a g now s).sessionEvents = s.sessionEvents ∨
      (attentionUpdate a g now s).sessionEvents =
        s.sessionEvents ++ [⟨"Focus restored", "info"⟩]) := by
  simp only [attentionUpdate]
  rw [if_neg h]
  split_ifs <;> simp

/-- Along any trace from a reset episode state, the distraction counter
is the length of the current consecutive distracted run and the episode
start time is the timestamp of the first frame of that run. -/
lemma runAttention_state (fs : List AttnFrame) :
    ∀ s0 : ProctoringState, s0.distractionCounter = 0 →
      s0.distractionStartTime = none →
      (runAttention fs s0).distractionCounter = (distractedRun fs).length ∧
      (runAttention fs s0).distractionStartTime =
        ((distractedRun fs).head?.map AttnFrame.time) := by
  induction fs using List.reverseRecOn with
  | nil =>
    intro s0 h1 h2
    exact ⟨h1, by simpa using h2⟩
  | append_singleton fs f ih =>
    intro s0 h1 h2
    have hrun : runAttention (fs ++ [f]) s0 =
        attentionUpdate f.attention f.gaze f.time (runAttention fs s0) := by
      simp [runAttention, List.foldl_append]
    obtain ⟨hc, hs⟩ := ih s0 h1 h2
    rw [hrun, distractedRun_append]
    by_cases hf : isDistractedFrame f = true
    · have hcond : f.attention = AttentionState.distracted ∨
          f.gaze = AttentionState.distracted := of_decide_eq_true hf
      obtain ⟨hc2, hs2⟩ := attentionUpdate_distracted f.attention f.gaze
        f.time (runAttention fs s0) hcond
      rw [if_pos hf]
      constructor
      · rw [hc2, hc]
        simp
      · rw [hs2, hs]
        cases hrunfs : distractedRun fs with
        | nil => simp
        | cons x xs => simp
    · have hcond : ¬ (f.attention = AttentionState.distracted ∨
          f.gaze = AttentionState.distracted) :=
        of_decide_eq_false (Bool.eq_false_iff.mpr hf)
      obtain ⟨hc2, hs2, _⟩ := attentionUpdate_focused f.attention f.gaze
        f.time (runAttention fs s0) hcond
      rw [if_neg hf]
      exact ⟨by simpa using hc2, by simpa using hs2⟩

/-- The per-state firing condition of the distraction confirmation: the
violation event is appended and the confirmed state moves to Distracted
iff the incremented counter meets the 3-frame bar, 2000 ms have passed
since the recorded episode start, and the confirmed state differed. -/
lemma attentionUpdate_fire_iff (a g : AttentionState) (now : Nat)
    (s : ProctoringState)
    (hcond : a = AttentionState.distracted ∨ g = AttentionState.distracted) :
    ((attentionUpdate a g now s).sessionEvents =
        s.sessionEvents ++ [⟨"Sustained distraction detected", "violation"⟩] ∧
      (attentionUpdate a g now s).lastAttentionState =
        AttentionState.distracted) ↔
      (3 ≤ s.distractionCounter + 1 ∧
        2000 ≤ now - s.distractionStartTime.getD now ∧
        s.lastAttentionState ≠ AttentionState.distracted) := by
  simp only [attentionUpdate]
  rw [if_pos hcond]
  split_ifs <;> simp_all [List.self_eq_append_right]

/-- C1: over any post-calibration frame trace started with a reset
episode, the Distracted confirmation (violation event plus confirmed
transition) fires on a frame iff that frame is at least the 3rd of the
current consecutive distracted run, at least 2000 ms passed since the
first frame of that run, and the confirmed state was not already
Distracted; a single per-frame-Focused frame resets the counter to 0 and
clears the episode start, and can never fire the confirmation.  The
first conjunct ties the state machine to onFaceMeshResults: past
calibration the handler is exactly the two analyzers feeding this
update. -/
theorem C1_distraction_hysteresis :
    ∀ (fs : List AttnFrame) (f : AttnFrame) (s0 : ProctoringState),
      s0.distractionCounter = 0 → s0.distractionStartTime = none →
      (∀ (lms : LandmarkSet) (now : Nat) (s : ProctoringState),
        s.isMonitoring = true → s.calibrationFrames = 46 →
        onFaceMeshResults (some lms) now s =
          attentionUpdate (analyzeAttention lms s).1
            (analyzeGaze lms (analyzeAttention lms s).2).1 now
            (analyzeGaze lms (analyzeAttention lms s).2).2) ∧
      (isDistractedFrame f = true →
        (((attentionUpdate f.attention f.gaze f.time
              (runAttention fs s0)).sessionEvents =
            (runAttention fs s0).sessionEvents ++
              [⟨"Sustained distraction detected", "violation"⟩] ∧
          (attentionUpdate f.attention f.gaze f.time
              (runAttention fs s0)).lastAttentionState =
            AttentionState.distracted) ↔
          (3 ≤ (distractedRun (fs ++ [f])).length ∧
            2000 ≤ f.time -
              (((distractedRun (fs ++ [f])).head?.map AttnFrame.time).getD
                f.time) ∧
            (runAttention fs s0).lastAttentionState ≠
              AttentionState.distracted))) ∧
      (isDistractedFrame f = false →
        (attentionUpdate f.attention f.gaze f.time
            (runAttention fs s0)).distractionCounter = 0 ∧
        (attentionUpdate f.attention f.gaze f.time
            (runAttention fs s0)).distractionStartTime = none ∧
        (attentionUpdate f.attention f.gaze f.time
            (runAttention fs s0)).sessionEvents ≠
          (runAttention fs s0).sessionEvents ++
            [⟨"Sustained distraction detected", "violation"⟩]) := by
  intro fs f s0 h1 h2
  obtain ⟨hc, hs⟩ := runAttention_state fs s0 h1 h2
  refine ⟨?_, ?_, ?_⟩
  · intro lms now s hm hcal
    simp only [onFaceMeshResults, hm]
    rw [if_neg (by simp), if_neg (by omega), if_neg (by omega)]
  · intro hf
    have hcond : f.attention = AttentionState.distracted ∨
        f.gaze = AttentionState.distracted := of_decide_eq_true hf
    rw [attentionUpdate_fire_iff f.attention f.gaze f.time
      (runAttention fs s0) hcond]
    rw [hc, hs, distractedRun_append, if_pos hf]
    cases hrunfs : distractedRun fs with
    | nil => simp
    | cons x xs => simp
  · intro hf
    have hcond : ¬ (f.attention = AttentionState.distracted ∨
        f.gaze = AttentionState.distracted) := of_decide_eq_false hf
    obtain ⟨ha, hb, hor⟩ := attentionUpdate_focused f.attention f.gaze
      f.time (runAttention fs s0) hcond
    refine ⟨ha, hb, ?_⟩
    rcases hor with hE | hE <;> rw [hE]
    · simp [List.self_eq_append_right]
    · simp

/-- C1 witness: two distracted frames at 0 and 100 ms, then a distracted
frame at 2500 ms — the 3rd consecutive frame with over 2000 ms elapsed —
confirms Distracted from the fresh unknown state. -/
theorem C1_distraction_hysteresis_witness :
    initStateRaw.distractionCounter = 0 ∧
    initStateRaw.distractionStartTime = none ∧
    isDistractedFrame
      ⟨AttentionState.distracted, AttentionState.focused, 2500⟩ = true ∧
    (attentionUpdate AttentionState.distracted AttentionState.focused 2500
        (runAttention
          [⟨AttentionState.distracted, AttentionState.focused, 0⟩,
            ⟨AttentionState.distracted, AttentionState.focused, 100⟩]
          initStateRaw)).lastAttentionState = AttentionState.distracted := by
  refine ⟨rfl, rfl, rfl, ?_⟩
  have h := (C1_distraction_hysteresis
    [⟨AttentionState.distracted, AttentionState.focused, 0⟩,
      ⟨AttentionState.distracted, AttentionState.focused, 100⟩]
    ⟨AttentionState.distracted, AttentionState.focused, 2500⟩
    initStateRaw rfl rfl).2.1 rfl
  exact (h.mpr ⟨by decide, by decide, by decide⟩).2

end Proctoring
